import Mathlib

/-!
Verification of the TLS cipher-suite registry (`dpkt/ssl_ciphersuites.py`).

The module defines a `CipherSuite` class holding the tokens of one suite
(code, key exchange, authentication, cipher, mode, MAC, optional explicit
name and encoding), a literal table `CIPHERSUITES` of 337 suites, a
code-indexed dictionary `BY_CODE` and a lazily built name-indexed
dictionary `BY_NAME`.  We embed the class as a structure, the derived
properties as functions, and the two dictionaries as association lookups.
-/

set_option maxRecDepth 20000
set_option maxHeartbeats 4000000

/-- Python's `str.rstrip()` whitespace test (space, tab, LF, CR, VT, FF). -/
def pyIsSpace (c : Char) : Bool :=
  c == ' ' || c == '\t' || c == '\n' || c == '\r' || c == '\x0b' || c == '\x0c'

/-- Python's `str.rstrip()`: drop trailing whitespace. -/
def rstrip (s : String) : String :=
  String.mk (List.reverse (List.dropWhile pyIsSpace (List.reverse s.data)))

/-- One cipher suite.  Fields `kxRaw`, `authRaw`, `nameOpt`, `encodingOpt`
embed the Python attributes `_kx`, `_auth`, `_name`, `_encoding`; the
remaining fields are stored under their source names. -/
structure CipherSuite where
  code : Nat
  kxRaw : String
  authRaw : String
  cipher : String
  mode : String
  mac : String
  nameOpt : Option String
  encodingOpt : Option String
deriving DecidableEq, Repr

/-- `CipherSuite.__init__`: the constructor strips trailing whitespace from
the five token arguments (the literal table pads them for alignment) and
stores name/encoding unchanged. -/
def CipherSuite.make (code : Nat) (kx auth cipher mode mac : String)
    (nm enc : Option String) : CipherSuite :=
  ⟨code, rstrip kx, rstrip auth, rstrip cipher, rstrip mode, rstrip mac, nm, enc⟩

/-- Constructor call with neither `name` nor `encoding` given. -/
def CipherSuite.plain (code : Nat) (kx auth cipher mode mac : String) : CipherSuite :=
  CipherSuite.make code kx auth cipher mode mac none none

/-- Constructor call with a positional `name` argument. -/
def CipherSuite.named (code : Nat) (kx auth cipher mode mac nm : String) : CipherSuite :=
  CipherSuite.make code kx auth cipher mode mac (some nm) none

/-- Constructor call with only the `encoding` keyword argument. -/
def CipherSuite.withEnc (code : Nat) (kx auth cipher mode mac enc : String) : CipherSuite :=
  CipherSuite.make code kx auth cipher mode mac none (some enc)

/-- Constructor call with both `name` and `encoding` given. -/
def CipherSuite.namedEnc (code : Nat) (kx auth cipher mode mac nm enc : String) : CipherSuite :=
  CipherSuite.make code kx auth cipher mode mac (some nm) (some enc)

/-- Property `kx` (the effective key exchange): falls back to `_auth` when
`_kx` is empty (PSK-family suites). -/
def CipherSuite.kx (s : CipherSuite) : String :=
  if s.kxRaw = "" then s.authRaw else s.kxRaw

/-- Property `auth` (the effective authentication): falls back to `_kx`
when `_auth` is empty (plain-RSA suites). -/
def CipherSuite.auth (s : CipherSuite) : String :=
  if s.authRaw = "" then s.kxRaw else s.authRaw

/-- Property `kx_auth`: the RFC combined KeyExchangeAlgorithm token. -/
def CipherSuite.kx_auth (s : CipherSuite) : String :=
  if s.authRaw = "" then s.kxRaw
  else if s.kxRaw = "" then s.authRaw
  else s.kxRaw ++ "_" ++ s.authRaw

/-- Property `encoding`: explicit override, else `cipher` (+ `_mode` when
the mode is non-empty). -/
def CipherSuite.encoding (s : CipherSuite) : String :=
  match s.encodingOpt with
  | some e => e
  | none => if s.mode = "" then s.cipher else s.cipher ++ "_" ++ s.mode

/-- Property `name`: explicit override, else
`TLS_<kx_auth>_WITH_<encoding>` with `_<mac>` appended when `mac` is
non-empty. -/
def CipherSuite.name (s : CipherSuite) : String :=
  match s.nameOpt with
  | some n => n
  | none =>
    if s.mac = "" then "TLS_" ++ s.kx_auth ++ "_WITH_" ++ s.encoding
    else "TLS_" ++ s.kx_auth ++ "_WITH_" ++ s.encoding ++ "_" ++ s.mac

/-- Class attribute `MAC_SIZES`. -/
def MAC_SIZES : List (String × Nat) :=
  [("MD5", 16), ("SHA", 20), ("SHA256", 32), ("SHA384", 48)]

/-- Class attribute `BLOCK_SIZES`.  A `none` value embeds Python's `None`
(the explicit "no block size" marker for RC4 variants). -/
def BLOCK_SIZES : List (String × Option Nat) :=
  [("3DES_EDE", some 8),
   ("AES_128", some 16),
   ("AES_256", some 16),
   ("ARIA", some 16),
   ("CAMELLIA_128", some 16),
   ("CAMELLIA_256", some 16),
   ("CHACHA20", some 64),
   ("DES", some 8),
   ("DES40", some 8),
   ("IDEA", some 8),
   ("IDEA_128", some 16),
   ("RC2_40", some 8),
   ("RC2_128", some 8),
   ("RC2_128_EXPORT40", some 8),
   ("RC4_40", none),
   ("RC4_128", none),
   ("RC4_128_EXPORT40", none),
   ("SEED", some 16)]

/-- Property `mac_size`: `MAC_SIZES.get(self.mac, 0)`. -/
def CipherSuite.mac_size (s : CipherSuite) : Nat :=
  match MAC_SIZES.lookup s.mac with
  | some v => v
  | none => 0

/-- Property `block_size`: `BLOCK_SIZES.get(self.cipher, 1)`.  The result
is `none` for an explicit `None` table value and `some 1` by default. -/
def CipherSuite.block_size (s : CipherSuite) : Option Nat :=
  match BLOCK_SIZES.lookup s.cipher with
  | some v => v
  | none => some 1

/-- Property `pfs`: `self.kx in ('DHE', 'ECDHE')`. -/
def CipherSuite.pfs (s : CipherSuite) : Bool :=
  s.kx == "DHE" || s.kx == "ECDHE"

/-- Property `aead`: `self.mode in ('CCM', 'CCM_8', 'GCM')`. -/
def CipherSuite.aead (s : CipherSuite) : Bool :=
  s.mode == "CCM" || s.mode == "CCM_8" || s.mode == "GCM"

/-- Property `anonymous`: `self.auth.startswith('anon')`. -/
def CipherSuite.anonymous (s : CipherSuite) : Bool :=
  String.startsWith s.auth ("anon")

/-- Module-level list `CIPHERSUITES`: the master table, transcribed row
by row from the source (codes and padded string literals verbatim). -/
def CIPHERSUITES : List CipherSuite := [
  CipherSuite.named 0x00ff "NULL" "        " "NULL    " "    " "NULL" "TLS_EMPTY_RENEGOTIATION_INFO",
  CipherSuite.named 0x5600 "" "            " "" "" "" "TLS_FALLBACK",
  CipherSuite.named 0xffff "" "            " "" "" "" "UNKNOWN_CIPHER",
  CipherSuite.plain 0x0000 "NULL" "        " "NULL    " "    " "NULL",
  CipherSuite.plain 0x0001 "RSA" "         " "NULL    " "    " "MD5",
  CipherSuite.plain 0x0002 "RSA" "         " "NULL    " "    " "SHA",
  CipherSuite.plain 0x0003 "RSA_EXPORT" "  " "RC4_40  " "    " "MD5",
  CipherSuite.plain 0x0004 "RSA" "         " "RC4_128 " "    " "MD5",
  CipherSuite.plain 0x0005 "RSA" "         " "RC4_128 " "    " "SHA",
  CipherSuite.withEnc 0x0006 "RSA_EXPORT" "  " "RC2_40  " "CBC " "MD5" "RC2_CBC_40",
  CipherSuite.plain 0x0007 "RSA" "         " "IDEA    " "CBC " "SHA",
  CipherSuite.plain 0x0008 "RSA_EXPORT" "  " "DES40   " "CBC " "SHA",
  CipherSuite.plain 0x0009 "RSA" "         " "DES     " "CBC " "SHA",
  CipherSuite.plain 0x000a "RSA" "         " "3DES_EDE" "CBC " "SHA",
  CipherSuite.plain 0x000b "DH" "DSS_EXPORT" "DES40   " "CBC " "SHA",
  CipherSuite.plain 0x000c "DH" "DSS       " "DES     " "CBC " "SHA",
  CipherSuite.plain 0x000d "DH" "DSS       " "3DES_EDE" "CBC " "SHA",
  CipherSuite.plain 0x000e "DH" "RSA_EXPORT" "DES40   " "CBC " "SHA",
  CipherSuite.plain 0x000f "DH" "RSA       " "DES     " "CBC " "SHA",
  CipherSuite.plain 0x0010 "DH" "RSA       " "3DES_EDE" "CBC " "SHA",
  CipherSuite.plain 0x0011 "DHE" "DSS_EXPORT" "DES40   " "CBC " "SHA",
  CipherSuite.plain 0x0012 "DHE" "DSS      " "DES     " "CBC " "SHA",
  CipherSuite.plain 0x0013 "DHE" "DSS      " "3DES_EDE" "CBC " "SHA",
  CipherSuite.plain 0x0014 "DHE" "RSA_EXPORT" "DES40   " "CBC " "SHA",
  CipherSuite.plain 0x0015 "DHE" "RSA      " "DES     " "CBC " "SHA",
  CipherSuite.plain 0x0016 "DHE" "RSA      " "3DES_EDE" "CBC " "SHA",
  CipherSuite.plain 0x0017 "DH" "anon_EXPORT" "RC4_40  " "    " "MD5",
  CipherSuite.plain 0x0018 "DH" "anon      " "RC4_128 " "    " "MD5",
  CipherSuite.plain 0x0019 "DH" "anon_EXPORT" "DES40   " "CBC " "SHA",
  CipherSuite.plain 0x001a "DH" "anon      " "DES     " "CBC " "SHA",
  CipherSuite.plain 0x001b "DH" "anon      " "3DES_EDE" "CBC " "SHA",
  CipherSuite.plain 0x001e "KRB5" "        " "DES     " "CBC " "SHA",
  CipherSuite.plain 0x001f "KRB5" "        " "3DES_EDE" "CBC " "SHA",
  CipherSuite.plain 0x0020 "KRB5" "        " "RC4_128 " "    " "SHA",
  CipherSuite.plain 0x0021 "KRB5" "        " "IDEA    " "CBC " "SHA",
  CipherSuite.plain 0x0022 "KRB5" "        " "DES     " "CBC " "MD5",
  CipherSuite.plain 0x0023 "KRB5" "        " "3DES_EDE" "CBC " "MD5",
  CipherSuite.plain 0x0024 "KRB5" "        " "RC4_128 " "    " "MD5",
  CipherSuite.plain 0x0025 "KRB5" "        " "IDEA    " "CBC " "MD5",
  CipherSuite.withEnc 0x0026 "KRB5_EXPORT" " " "DES40   " "CBC " "SHA" "DES_CBC_40",
  CipherSuite.withEnc 0x0027 "KRB5_EXPORT" " " "RC2_40  " "CBC " "SHA" "RC2_CBC_40",
  CipherSuite.plain 0x0028 "KRB5_EXPORT" " " "RC4_40  " "    " "SHA",
  CipherSuite.withEnc 0x0029 "KRB5_EXPORT" " " "DES40   " "CBC " "MD5" "DES_CBC_40",
  CipherSuite.withEnc 0x002a "KRB5_EXPORT" " " "RC2_40  " "CBC " "MD5" "RC2_CBC_40",
  CipherSuite.plain 0x002b "KRB5_EXPORT" " " "RC4_40  " "    " "MD5",
  CipherSuite.plain 0x002c "    " "PSK     " "NULL    " "    " "SHA",
  CipherSuite.plain 0x002d "DHE " "PSK     " "NULL    " "    " "SHA",
  CipherSuite.plain 0x002e "RSA " "PSK     " "NULL    " "    " "SHA",
  CipherSuite.plain 0x002f "RSA " "        " "AES_128 " "CBC " "SHA",
  CipherSuite.plain 0x0030 "DH  " "DSS     " "AES_128 " "CBC " "SHA",
  CipherSuite.plain 0x0031 "DH  " "RSA     " "AES_128 " "CBC " "SHA",
  CipherSuite.plain 0x0032 "DHE " "DSS     " "AES_128 " "CBC " "SHA",
  CipherSuite.plain 0x0033 "DHE " "RSA     " "AES_128 " "CBC " "SHA",
  CipherSuite.plain 0x0034 "DH  " "anon    " "AES_128 " "CBC " "SHA",
  CipherSuite.plain 0x0035 "RSA " "        " "AES_256 " "CBC " "SHA",
  CipherSuite.plain 0x0036 "DH  " "DSS     " "AES_256 " "CBC " "SHA",
  CipherSuite.plain 0x0037 "DH  " "RSA     " "AES_256 " "CBC " "SHA",
  CipherSuite.plain 0x0038 "DHE " "DSS     " "AES_256 " "CBC " "SHA",
  CipherSuite.plain 0x0039 "DHE " "RSA     " "AES_256 " "CBC " "SHA",
  CipherSuite.plain 0x003a "DH  " "anon    " "AES_256 " "CBC " "SHA",
  CipherSuite.plain 0x003b "RSA " "        " "NULL    " "    " "SHA256",
  CipherSuite.plain 0x003c "RSA " "        " "AES_128 " "CBC " "SHA256",
  CipherSuite.plain 0x003d "RSA " "        " "AES_256 " "CBC " "SHA256",
  CipherSuite.plain 0x003e "DH  " "DSS     " "AES_128 " "CBC " "SHA256",
  CipherSuite.plain 0x003f "DH  " "RSA     " "AES_128 " "CBC " "SHA256",
  CipherSuite.plain 0x0040 "DHE " "DSS     " "AES_128 " "CBC " "SHA256",
  CipherSuite.plain 0x0041 "RSA " "        " "CAMELLIA_128" "CBC" "SHA",
  CipherSuite.plain 0x0042 "DH  " "DSS     " "CAMELLIA_128" "CBC" "SHA",
  CipherSuite.plain 0x0043 "DH  " "RSA     " "CAMELLIA_128" "CBC" "SHA",
  CipherSuite.plain 0x0044 "DHE " "DSS     " "CAMELLIA_128" "CBC" "SHA",
  CipherSuite.plain 0x0045 "DHE " "RSA     " "CAMELLIA_128" "CBC" "SHA",
  CipherSuite.plain 0x0046 "DH  " "anon    " "CAMELLIA_128" "CBC" "SHA",
  CipherSuite.plain 0x0067 "DHE " "RSA     " "AES_128 " "CBC " "SHA256",
  CipherSuite.plain 0x0068 "DH  " "DSS     " "AES_256 " "CBC " "SHA256",
  CipherSuite.plain 0x0069 "DH  " "RSA     " "AES_256 " "CBC " "SHA256",
  CipherSuite.plain 0x006a "DHE " "DSS     " "AES_256 " "CBC " "SHA256",
  CipherSuite.plain 0x006b "DHE " "RSA     " "AES_256 " "CBC " "SHA256",
  CipherSuite.plain 0x006c "DH  " "anon    " "AES_128 " "CBC " "SHA256",
  CipherSuite.plain 0x006d "DH  " "anon    " "AES_256 " "CBC " "SHA256",
  CipherSuite.plain 0x0084 "RSA " "        " "CAMELLIA_256" "CBC" "SHA",
  CipherSuite.plain 0x0085 "DH  " "DSS     " "CAMELLIA_256" "CBC" "SHA",
  CipherSuite.plain 0x0086 "DH  " "RSA     " "CAMELLIA_256" "CBC" "SHA",
  CipherSuite.plain 0x0087 "DHE " "DSS     " "CAMELLIA_256" "CBC" "SHA",
  CipherSuite.plain 0x0088 "DHE " "RSA     " "CAMELLIA_256" "CBC" "SHA",
  CipherSuite.plain 0x0089 "DH  " "anon    " "CAMELLIA_256" "CBC" "SHA",
  CipherSuite.plain 0x008a "    " "PSK     " "RC4_128 " "    " "SHA",
  CipherSuite.plain 0x008b "    " "PSK     " "3DES_EDE" "CBC " "SHA",
  CipherSuite.plain 0x008c "    " "PSK     " "AES_128 " "CBC " "SHA",
  CipherSuite.plain 0x008d "    " "PSK     " "AES_256 " "CBC " "SHA",
  CipherSuite.plain 0x008e "DHE " "PSK     " "RC4_128 " "    " "SHA",
  CipherSuite.plain 0x008f "DHE " "PSK     " "3DES_EDE" "CBC " "SHA",
  CipherSuite.plain 0x0090 "DHE " "PSK     " "AES_128 " "CBC " "SHA",
  CipherSuite.plain 0x0091 "DHE " "PSK     " "AES_256 " "CBC " "SHA",
  CipherSuite.plain 0x0092 "RSA " "PSK     " "RC4_128 " "    " "SHA",
  CipherSuite.plain 0x0093 "RSA " "PSK     " "3DES_EDE" "CBC " "SHA",
  CipherSuite.plain 0x0094 "RSA " "PSK     " "AES_128 " "CBC " "SHA",
  CipherSuite.plain 0x0095 "RSA " "PSK     " "AES_256 " "CBC " "SHA",
  CipherSuite.plain 0x0096 "RSA " "        " "SEED    " "CBC " "SHA",
  CipherSuite.plain 0x0097 "DH  " "DSS     " "SEED    " "CBC " "SHA",
  CipherSuite.plain 0x0098 "DH  " "RSA     " "SEED    " "CBC " "SHA",
  CipherSuite.plain 0x0099 "DHE " "DSS     " "SEED    " "CBC " "SHA",
  CipherSuite.plain 0x009a "DHE " "RSA     " "SEED    " "CBC " "SHA",
  CipherSuite.plain 0x009b "DH  " "anon    " "SEED    " "CBC " "SHA",
  CipherSuite.plain 0x009c "RSA " "        " "AES_128 " "GCM " "SHA256",
  CipherSuite.plain 0x009d "RSA " "        " "AES_256 " "GCM " "SHA384",
  CipherSuite.plain 0x009e "DHE " "RSA     " "AES_128 " "GCM " "SHA256",
  CipherSuite.plain 0x009f "DHE " "RSA     " "AES_256 " "GCM " "SHA384",
  CipherSuite.plain 0x00a0 "DH  " "RSA     " "AES_128 " "GCM " "SHA256",
  CipherSuite.plain 0x00a1 "DH  " "RSA     " "AES_256 " "GCM " "SHA384",
  CipherSuite.plain 0x00a2 "DHE " "DSS     " "AES_128 " "GCM " "SHA256",
  CipherSuite.plain 0x00a3 "DHE " "DSS     " "AES_256 " "GCM " "SHA384",
  CipherSuite.plain 0x00a4 "DH  " "DSS     " "AES_128 " "GCM " "SHA256",
  CipherSuite.plain 0x00a5 "DH  " "DSS     " "AES_256 " "GCM " "SHA384",
  CipherSuite.plain 0x00a6 "DH  " "anon    " "AES_128 " "GCM " "SHA256",
  CipherSuite.plain 0x00a7 "DH  " "anon    " "AES_256 " "GCM " "SHA384",
  CipherSuite.plain 0x00a8 "    " "PSK     " "AES_128 " "GCM " "SHA256",
  CipherSuite.plain 0x00a9 "    " "PSK     " "AES_256 " "GCM " "SHA384",
  CipherSuite.plain 0x00aa "DHE " "PSK     " "AES_128 " "GCM " "SHA256",
  CipherSuite.plain 0x00ab "DHE " "PSK     " "AES_256 " "GCM " "SHA384",
  CipherSuite.plain 0x00ac "RSA " "PSK     " "AES_128 " "GCM " "SHA256",
  CipherSuite.plain 0x00ad "RSA " "PSK     " "AES_256 " "GCM " "SHA384",
  CipherSuite.plain 0x00ae "    " "PSK     " "AES_128 " "CBC " "SHA256",
  CipherSuite.plain 0x00af "    " "PSK     " "AES_256 " "CBC " "SHA384",
  CipherSuite.plain 0x00b0 "    " "PSK     " "NULL    " "    " "SHA256",
  CipherSuite.plain 0x00b1 "    " "PSK     " "NULL    " "    " "SHA384",
  CipherSuite.plain 0x00b2 "DHE " "PSK     " "AES_128 " "CBC " "SHA256",
  CipherSuite.plain 0x00b3 "DHE " "PSK     " "AES_256 " "CBC " "SHA384",
  CipherSuite.plain 0x00b4 "DHE " "PSK     " "NULL    " "    " "SHA256",
  CipherSuite.plain 0x00b5 "DHE " "PSK     " "NULL    " "    " "SHA384",
  CipherSuite.plain 0x00b6 "RSA " "PSK     " "AES_128 " "CBC " "SHA256",
  CipherSuite.plain 0x00b7 "RSA " "PSK     " "AES_256 " "CBC " "SHA384",
  CipherSuite.plain 0x00b8 "RSA " "PSK     " "NULL    " "    " "SHA256",
  CipherSuite.plain 0x00b9 "RSA " "PSK     " "NULL    " "    " "SHA384",
  CipherSuite.plain 0x00ba "RSA " "        " "CAMELLIA_128" "CBC" "SHA256",
  CipherSuite.plain 0x00bb "DH  " "DSS     " "CAMELLIA_128" "CBC" "SHA256",
  CipherSuite.plain 0x00bc "DH  " "RSA     " "CAMELLIA_128" "CBC" "SHA256",
  CipherSuite.plain 0x00bd "DHE " "DSS     " "CAMELLIA_128" "CBC" "SHA256",
  CipherSuite.plain 0x00be "DHE " "RSA     " "CAMELLIA_128" "CBC" "SHA256",
  CipherSuite.plain 0x00bf "DH  " "anon    " "CAMELLIA_128" "CBC" "SHA256",
  CipherSuite.plain 0x00c0 "RSA " "        " "CAMELLIA_256" "CBC" "SHA256",
  CipherSuite.plain 0x00c1 "DH  " "DSS     " "CAMELLIA_256" "CBC" "SHA256",
  CipherSuite.plain 0x00c2 "DH  " "RSA     " "CAMELLIA_256" "CBC" "SHA256",
  CipherSuite.plain 0x00c3 "DHE " "DSS     " "CAMELLIA_256" "CBC" "SHA256",
  CipherSuite.plain 0x00c4 "DHE " "RSA     " "CAMELLIA_256" "CBC" "SHA256",
  CipherSuite.plain 0x00c5 "DH  " "anon    " "CAMELLIA_256" "CBC" "SHA256",
  CipherSuite.plain 0xc001 "ECDH " "ECDSA  " "NULL    " "    " "SHA",
  CipherSuite.plain 0xc002 "ECDH " "ECDSA  " "RC4_128 " "    " "SHA",
  CipherSuite.plain 0xc003 "ECDH " "ECDSA  " "3DES_EDE" "CBC " "SHA",
  CipherSuite.plain 0xc004 "ECDH " "ECDSA  " "AES_128 " "CBC " "SHA",
  CipherSuite.plain 0xc005 "ECDH " "ECDSA  " "AES_256 " "CBC " "SHA",
  CipherSuite.plain 0xc006 "ECDHE" "ECDSA  " "NULL    " "    " "SHA",
  CipherSuite.plain 0xc007 "ECDHE" "ECDSA  " "RC4_128 " "    " "SHA",
  CipherSuite.plain 0xc008 "ECDHE" "ECDSA  " "3DES_EDE" "CBC " "SHA",
  CipherSuite.plain 0xc009 "ECDHE" "ECDSA  " "AES_128 " "CBC " "SHA",
  CipherSuite.plain 0xc00a "ECDHE" "ECDSA  " "AES_256 " "CBC " "SHA",
  CipherSuite.plain 0xc00b "ECDH " "RSA    " "NULL    " "    " "SHA",
  CipherSuite.plain 0xc00c "ECDH " "RSA    " "RC4_128 " "    " "SHA",
  CipherSuite.plain 0xc00d "ECDH " "RSA    " "3DES_EDE" "CBC " "SHA",
  CipherSuite.plain 0xc00e "ECDH " "RSA    " "AES_128 " "CBC " "SHA",
  CipherSuite.plain 0xc00f "ECDH " "RSA    " "AES_256 " "CBC " "SHA",
  CipherSuite.plain 0xc010 "ECDHE" "RSA    " "NULL    " "    " "SHA",
  CipherSuite.plain 0xc011 "ECDHE" "RSA    " "RC4_128 " "    " "SHA",
  CipherSuite.plain 0xc012 "ECDHE" "RSA    " "3DES_EDE" "CBC " "SHA",
  CipherSuite.plain 0xc013 "ECDHE" "RSA    " "AES_128 " "CBC " "SHA",
  CipherSuite.plain 0xc014 "ECDHE" "RSA    " "AES_256 " "CBC " "SHA",
  CipherSuite.plain 0xc015 "ECDH " "anon   " "NULL    " "    " "SHA",
  CipherSuite.plain 0xc016 "ECDH " "anon   " "RC4_128 " "    " "SHA",
  CipherSuite.plain 0xc017 "ECDH " "anon   " "3DES_EDE" "CBC " "SHA",
  CipherSuite.plain 0xc018 "ECDH " "anon   " "AES_128 " "CBC " "SHA",
  CipherSuite.plain 0xc019 "ECDH " "anon   " "AES_256 " "CBC " "SHA",
  CipherSuite.plain 0xc01a "SRP_SHA" "     " "3DES_EDE" "CBC " "SHA",
  CipherSuite.plain 0xc01b "SRP_SHA" "RSA  " "3DES_EDE" "CBC " "SHA",
  CipherSuite.plain 0xc01c "SRP_SHA" "DSS  " "3DES_EDE" "CBC " "SHA",
  CipherSuite.plain 0xc01d "SRP_SHA" "     " "AES_128 " "CBC " "SHA",
  CipherSuite.plain 0xc01e "SRP_SHA" "RSA  " "AES_128 " "CBC " "SHA",
  CipherSuite.plain 0xc01f "SRP_SHA" "DSS  " "AES_128 " "CBC " "SHA",
  CipherSuite.plain 0xc020 "SRP_SHA" "     " "AES_256 " "CBC " "SHA",
  CipherSuite.plain 0xc021 "SRP_SHA" "RSA  " "AES_256 " "CBC " "SHA",
  CipherSuite.plain 0xc022 "SRP_SHA" "DSS  " "AES_256 " "CBC " "SHA",
  CipherSuite.plain 0xc023 "ECDHE" "ECDSA  " "AES_128 " "CBC " "SHA256",
  CipherSuite.plain 0xc024 "ECDHE" "ECDSA  " "AES_256 " "CBC " "SHA384",
  CipherSuite.plain 0xc025 "ECDH " "ECDSA  " "AES_128 " "CBC " "SHA256",
  CipherSuite.plain 0xc026 "ECDH " "ECDSA  " "AES_256 " "CBC " "SHA384",
  CipherSuite.plain 0xc027 "ECDHE" "RSA    " "AES_128 " "CBC " "SHA256",
  CipherSuite.plain 0xc028 "ECDHE" "RSA    " "AES_256 " "CBC " "SHA384",
  CipherSuite.plain 0xc029 "ECDH " "RSA    " "AES_128 " "CBC " "SHA256",
  CipherSuite.plain 0xc02a "ECDH " "RSA    " "AES_256 " "CBC " "SHA384",
  CipherSuite.plain 0xc02b "ECDHE" "ECDSA  " "AES_128 " "GCM " "SHA256",
  CipherSuite.plain 0xc02c "ECDHE" "ECDSA  " "AES_256 " "GCM " "SHA384",
  CipherSuite.plain 0xc02d "ECDH " "ECDSA  " "AES_128 " "GCM " "SHA256",
  CipherSuite.plain 0xc02e "ECDH " "ECDSA  " "AES_256 " "GCM " "SHA384",
  CipherSuite.plain 0xc02f "ECDHE" "RSA    " "AES_128 " "GCM " "SHA256",
  CipherSuite.plain 0xc030 "ECDHE" "RSA    " "AES_256 " "GCM " "SHA384",
  CipherSuite.plain 0xc031 "ECDH " "RSA    " "AES_128 " "GCM " "SHA256",
  CipherSuite.plain 0xc032 "ECDH " "RSA    " "AES_256 " "GCM " "SHA384",
  CipherSuite.plain 0xc033 "ECDHE" "PSK    " "RC4_128 " "    " "SHA",
  CipherSuite.plain 0xc034 "ECDHE" "PSK    " "3DES_EDE" "CBC " "SHA",
  CipherSuite.plain 0xc035 "ECDHE" "PSK    " "AES_128 " "CBC " "SHA",
  CipherSuite.plain 0xc036 "ECDHE" "PSK    " "AES_256 " "CBC " "SHA",
  CipherSuite.plain 0xc037 "ECDHE" "PSK    " "AES_128 " "CBC " "SHA256",
  CipherSuite.plain 0xc038 "ECDHE" "PSK    " "AES_256 " "CBC " "SHA384",
  CipherSuite.plain 0xc039 "ECDHE" "PSK    " "NULL    " "    " "SHA",
  CipherSuite.plain 0xc03a "ECDHE" "PSK    " "NULL    " "    " "SHA256",
  CipherSuite.plain 0xc03b "ECDHE" "PSK    " "NULL    " "    " "SHA384",
  CipherSuite.plain 0xc03c "RSA " "        " "ARIA_128" "CBC " "SHA256",
  CipherSuite.plain 0xc03d "RSA " "        " "ARIA_256" "CBC " "SHA384",
  CipherSuite.plain 0xc03e "DH  " "DSS     " "ARIA_128" "CBC " "SHA256",
  CipherSuite.plain 0xc03f "DH  " "DSS     " "ARIA_256" "CBC " "SHA384",
  CipherSuite.plain 0xc040 "DH  " "RSA     " "ARIA_128" "CBC " "SHA256",
  CipherSuite.plain 0xc041 "DH  " "RSA     " "ARIA_256" "CBC " "SHA384",
  CipherSuite.plain 0xc042 "DHE " "DSS     " "ARIA_128" "CBC " "SHA256",
  CipherSuite.plain 0xc043 "DHE " "DSS     " "ARIA_256" "CBC " "SHA384",
  CipherSuite.plain 0xc044 "DHE " "RSA     " "ARIA_128" "CBC " "SHA256",
  CipherSuite.plain 0xc045 "DHE " "RSA     " "ARIA_256" "CBC " "SHA384",
  CipherSuite.plain 0xc046 "DH  " "anon    " "ARIA_128" "CBC " "SHA256",
  CipherSuite.plain 0xc047 "DH  " "anon    " "ARIA_256" "CBC " "SHA384",
  CipherSuite.plain 0xc048 "ECDHE" "ECDSA  " "ARIA_128" "CBC " "SHA256",
  CipherSuite.plain 0xc049 "ECDHE" "ECDSA  " "ARIA_256" "CBC " "SHA384",
  CipherSuite.plain 0xc04a "ECDH " "ECDSA  " "ARIA_128" "CBC " "SHA256",
  CipherSuite.plain 0xc04b "ECDH " "ECDSA  " "ARIA_256" "CBC " "SHA384",
  CipherSuite.plain 0xc04c "ECDHE" "RSA    " "ARIA_128" "CBC " "SHA256",
  CipherSuite.plain 0xc04d "ECDHE" "RSA    " "ARIA_256" "CBC " "SHA384",
  CipherSuite.plain 0xc04e "ECDH " "RSA    " "ARIA_128" "CBC " "SHA256",
  CipherSuite.plain 0xc04f "ECDH " "RSA    " "ARIA_256" "CBC " "SHA384",
  CipherSuite.plain 0xc050 "RSA " "        " "ARIA_128" "GCM " "SHA256",
  CipherSuite.plain 0xc051 "RSA " "        " "ARIA_256" "GCM " "SHA384",
  CipherSuite.plain 0xc052 "DHE " "RSA     " "ARIA_128" "GCM " "SHA256",
  CipherSuite.plain 0xc053 "DHE " "RSA     " "ARIA_256" "GCM " "SHA384",
  CipherSuite.plain 0xc054 "DH  " "RSA     " "ARIA_128" "GCM " "SHA256",
  CipherSuite.plain 0xc055 "DH  " "RSA     " "ARIA_256" "GCM " "SHA384",
  CipherSuite.plain 0xc056 "DHE " "DSS     " "ARIA_128" "GCM " "SHA256",
  CipherSuite.plain 0xc057 "DHE " "DSS     " "ARIA_256" "GCM " "SHA384",
  CipherSuite.plain 0xc058 "DH  " "DSS     " "ARIA_128" "GCM " "SHA256",
  CipherSuite.plain 0xc059 "DH  " "DSS     " "ARIA_256" "GCM " "SHA384",
  CipherSuite.plain 0xc05a "DH  " "anon    " "ARIA_128" "GCM " "SHA256",
  CipherSuite.plain 0xc05b "DH  " "anon    " "ARIA_256" "GCM " "SHA384",
  CipherSuite.plain 0xc05c "ECDHE" "ECDSA  " "ARIA_128" "GCM " "SHA256",
  CipherSuite.plain 0xc05d "ECDHE" "ECDSA  " "ARIA_256" "GCM " "SHA384",
  CipherSuite.plain 0xc05e "ECDH " "ECDSA  " "ARIA_128" "GCM " "SHA256",
  CipherSuite.plain 0xc05f "ECDH " "ECDSA  " "ARIA_256" "GCM " "SHA384",
  CipherSuite.plain 0xc060 "ECDHE" "RSA    " "ARIA_128" "GCM " "SHA256",
  CipherSuite.plain 0xc061 "ECDHE" "RSA    " "ARIA_256" "GCM " "SHA384",
  CipherSuite.plain 0xc062 "ECDH " "RSA    " "ARIA_128" "GCM " "SHA256",
  CipherSuite.plain 0xc063 "ECDH " "RSA    " "ARIA_256" "GCM " "SHA384",
  CipherSuite.plain 0xc064 "    " "PSK     " "ARIA_128" "CBC " "SHA256",
  CipherSuite.plain 0xc065 "    " "PSK     " "ARIA_256" "CBC " "SHA384",
  CipherSuite.plain 0xc066 "DHE " "PSK     " "ARIA_128" "CBC " "SHA256",
  CipherSuite.plain 0xc067 "DHE " "PSK     " "ARIA_256" "CBC " "SHA384",
  CipherSuite.plain 0xc068 "RSA " "PSK     " "ARIA_128" "CBC " "SHA256",
  CipherSuite.plain 0xc069 "RSA " "PSK     " "ARIA_256" "CBC " "SHA384",
  CipherSuite.plain 0xc06a "    " "PSK     " "ARIA_128" "GCM " "SHA256",
  CipherSuite.plain 0xc06b "    " "PSK     " "ARIA_256" "GCM " "SHA384",
  CipherSuite.plain 0xc06c "DHE " "PSK     " "ARIA_128" "GCM " "SHA256",
  CipherSuite.plain 0xc06d "DHE " "PSK     " "ARIA_256" "GCM " "SHA384",
  CipherSuite.plain 0xc06e "RSA " "PSK     " "ARIA_128" "GCM " "SHA256",
  CipherSuite.plain 0xc06f "RSA " "PSK     " "ARIA_256" "GCM " "SHA384",
  CipherSuite.plain 0xc070 "ECDHE" "PSK    " "ARIA_128" "GCM " "SHA256",
  CipherSuite.plain 0xc071 "ECDHE" "PSK    " "ARIA_256" "GCM " "SHA384",
  CipherSuite.plain 0xc072 "ECDHE" "ECDSA  " "CAMELLIA_128" "CBC" "SHA256",
  CipherSuite.plain 0xc073 "ECDHE" "ECDSA  " "CAMELLIA_256" "CBC" "SHA384",
  CipherSuite.plain 0xc074 "ECDH " "ECDSA  " "CAMELLIA_128" "CBC" "SHA256",
  CipherSuite.plain 0xc075 "ECDH " "ECDSA  " "CAMELLIA_256" "CBC" "SHA384",
  CipherSuite.plain 0xc076 "ECDHE" "RSA    " "CAMELLIA_128" "CBC" "SHA256",
  CipherSuite.plain 0xc077 "ECDHE" "RSA    " "CAMELLIA_256" "CBC" "SHA384",
  CipherSuite.plain 0xc078 "ECDH " "RSA    " "CAMELLIA_128" "CBC" "SHA256",
  CipherSuite.plain 0xc079 "ECDH " "RSA    " "CAMELLIA_256" "CBC" "SHA384",
  CipherSuite.plain 0xc07a "RSA " "        " "CAMELLIA_128" "GCM" "SHA256",
  CipherSuite.plain 0xc07b "RSA " "        " "CAMELLIA_256" "GCM" "SHA384",
  CipherSuite.plain 0xc07c "DHE " "RSA     " "CAMELLIA_128" "GCM" "SHA256",
  CipherSuite.plain 0xc07d "DHE " "RSA     " "CAMELLIA_256" "GCM" "SHA384",
  CipherSuite.plain 0xc07e "DH  " "RSA     " "CAMELLIA_128" "GCM" "SHA256",
  CipherSuite.plain 0xc07f "DH  " "RSA     " "CAMELLIA_256" "GCM" "SHA384",
  CipherSuite.plain 0xc080 "DHE " "DSS     " "CAMELLIA_128" "GCM" "SHA256",
  CipherSuite.plain 0xc081 "DHE " "DSS     " "CAMELLIA_256" "GCM" "SHA384",
  CipherSuite.plain 0xc082 "DH  " "DSS     " "CAMELLIA_128" "GCM" "SHA256",
  CipherSuite.plain 0xc083 "DH  " "DSS     " "CAMELLIA_256" "GCM" "SHA384",
  CipherSuite.plain 0xc084 "DH  " "anon    " "CAMELLIA_128" "GCM" "SHA256",
  CipherSuite.plain 0xc085 "DH  " "anon    " "CAMELLIA_256" "GCM" "SHA384",
  CipherSuite.plain 0xc086 "ECDHE" "ECDSA  " "CAMELLIA_128" "GCM" "SHA256",
  CipherSuite.plain 0xc087 "ECDHE" "ECDSA  " "CAMELLIA_256" "GCM" "SHA384",
  CipherSuite.plain 0xc088 "ECDH " "ECDSA  " "CAMELLIA_128" "GCM" "SHA256",
  CipherSuite.plain 0xc089 "ECDH " "ECDSA  " "CAMELLIA_256" "GCM" "SHA384",
  CipherSuite.plain 0xc08a "ECDHE" "RSA    " "CAMELLIA_128" "GCM" "SHA256",
  CipherSuite.plain 0xc08b "ECDHE" "RSA    " "CAMELLIA_256" "GCM" "SHA384",
  CipherSuite.plain 0xc08c "ECDH " "RSA    " "CAMELLIA_128" "GCM" "SHA256",
  CipherSuite.plain 0xc08d "ECDH " "RSA    " "CAMELLIA_256" "GCM" "SHA384",
  CipherSuite.plain 0xc08e "    " "PSK     " "CAMELLIA_128" "GCM" "SHA256",
  CipherSuite.plain 0xc08f "    " "PSK     " "CAMELLIA_256" "GCM" "SHA384",
  CipherSuite.plain 0xc090 "DHE " "PSK     " "CAMELLIA_128" "GCM" "SHA256",
  CipherSuite.plain 0xc091 "DHE " "PSK     " "CAMELLIA_256" "GCM" "SHA384",
  CipherSuite.plain 0xc092 "RSA " "PSK     " "CAMELLIA_128" "GCM" "SHA256",
  CipherSuite.plain 0xc093 "RSA " "PSK     " "CAMELLIA_256" "GCM" "SHA384",
  CipherSuite.plain 0xc094 "    " "PSK     " "CAMELLIA_128" "CBC" "SHA256",
  CipherSuite.plain 0xc095 "    " "PSK     " "CAMELLIA_256" "CBC" "SHA384",
  CipherSuite.plain 0xc096 "DHE " "PSK     " "CAMELLIA_128" "CBC" "SHA256",
  CipherSuite.plain 0xc097 "DHE " "PSK     " "CAMELLIA_256" "CBC" "SHA384",
  CipherSuite.plain 0xc098 "RSA " "PSK     " "CAMELLIA_128" "CBC" "SHA256",
  CipherSuite.plain 0xc099 "RSA " "PSK     " "CAMELLIA_256" "CBC" "SHA384",
  CipherSuite.plain 0xc09a "ECDHE" "PSK    " "CAMELLIA_128" "CBC" "SHA256",
  CipherSuite.plain 0xc09b "ECDHE" "PSK    " "CAMELLIA_256" "CBC" "SHA384",
  CipherSuite.plain 0xc09c "RSA " "        " "AES_128 " "CCM " "",
  CipherSuite.plain 0xc09d "RSA " "        " "AES_256 " "CCM " "",
  CipherSuite.plain 0xc09e "DHE " "RSA     " "AES_128 " "CCM " "",
  CipherSuite.plain 0xc09f "DHE " "RSA     " "AES_256 " "CCM " "",
  CipherSuite.plain 0xc0a0 "RSA " "        " "AES_128 " "CCM_8" "",
  CipherSuite.plain 0xc0a1 "RSA " "        " "AES_256 " "CCM_8" "",
  CipherSuite.plain 0xc0a2 "DHE " "RSA     " "AES_128 " "CCM_8" "",
  CipherSuite.plain 0xc0a3 "DHE " "RSA     " "AES_256 " "CCM_8" "",
  CipherSuite.plain 0xc0a4 "    " "PSK     " "AES_128 " "CCM " "",
  CipherSuite.plain 0xc0a5 "    " "PSK     " "AES_256 " "CCM " "",
  CipherSuite.plain 0xc0a6 "DHE " "PSK     " "AES_128 " "CCM " "",
  CipherSuite.plain 0xc0a7 "DHE " "PSK     " "AES_256 " "CCM " "",
  CipherSuite.plain 0xc0a8 "    " "PSK     " "AES_128 " "CCM_8" "",
  CipherSuite.plain 0xc0a9 "    " "PSK     " "AES_256 " "CCM_8" "",
  CipherSuite.plain 0xc0aa "DHE " "PSK     " "AES_128 " "CCM_8" "",
  CipherSuite.plain 0xc0ab "DHE " "PSK     " "AES_256 " "CCM_8" "",
  CipherSuite.plain 0xc0ac "ECDHE" "ECDSA  " "AES_128 " "CCM " "",
  CipherSuite.plain 0xc0ad "ECDHE" "ECDSA  " "AES_256 " "CCM " "",
  CipherSuite.plain 0xc0ae "ECDHE" "ECDSA  " "AES_128 " "CCM_8" "",
  CipherSuite.plain 0xc0af "ECDHE" "ECDSA  " "AES_256 " "CCM_8" "",
  CipherSuite.named 0xcc13 "ECDHE" "RSA    " "CHACHA20" "POLY1305" "SHA256" "OLD_TLS_ECDHE_RSA_WITH_CHACHA20_POLY1305_SHA256",
  CipherSuite.named 0xcc14 "ECDHE" "ECDSA  " "CHACHA20" "POLY1305" "SHA256" "OLD_TLS_ECDHE_ECDSA_WITH_CHACHA20_POLY1305_SHA256",
  CipherSuite.named 0xcc15 "DHE  " "RSA    " "CHACHA20" "POLY1305" "SHA256" "OLD_TLS_DHE_RSA_WITH_CHACHA20_POLY1305_SHA256",
  CipherSuite.plain 0xcca8 "ECDHE" "RSA    " "CHACHA20" "POLY1305" "SHA256",
  CipherSuite.plain 0xcca9 "ECDHE" "ECDSA  " "CHACHA20" "POLY1305" "SHA256",
  CipherSuite.plain 0xccaa "DHE  " "RSA    " "CHACHA20" "POLY1305" "SHA256",
  CipherSuite.plain 0xccab "     " "PSK    " "CHACHA20" "POLY1305" "SHA256",
  CipherSuite.plain 0xccac "ECDHE" "PSK    " "CHACHA20" "POLY1305" "SHA256",
  CipherSuite.plain 0xccad "DHE  " "PSK    " "CHACHA20" "POLY1305" "SHA256",
  CipherSuite.plain 0xccae "RSA  " "PSK    " "CHACHA20" "POLY1305" "SHA256",
  CipherSuite.named 0x010080 "RSA" "RSA    " "RC4_128         " "   " "MD5" "SSL_CK_RC4_128_WITH_MD5",
  CipherSuite.named 0x020080 "RSA" "RSA    " "RC4_128_EXPORT40" "   " "MD5" "SSL_CK_RC4_128_EXPORT40_WITH_MD5",
  CipherSuite.namedEnc 0x030080 "RSA" "RSA    " "RC2_128         " "CBC" "MD5" "SSL_CK_RC2_128_CBC_WITH_MD5" "RC2_CBC_128",
  CipherSuite.namedEnc 0x040080 "RSA" "RSA    " "RC2_128_EXPORT40" "CBC" "MD5" "SSL_CK_RC2_128_CBC_EXPORT40_WITH_MD5" "RC2_CBC_128_EXPORT40",
  CipherSuite.namedEnc 0x050080 "RSA" "RSA    " "IDEA_128        " "CBC" "MD5" "SSL_CK_IDEA_128_CBC_WITH_MD5" "IDEA_CBC_128",
  CipherSuite.namedEnc 0x060040 "RSA" "RSA    " "DES             " "CBC" "MD5" "SSL_CK_DES_64_CBC_WITH_MD5" "DES_CBC_64",
  CipherSuite.namedEnc 0x0700C0 "RSA" "RSA    " "3DES            " "CBC" "MD5" "SSL_CK_DES_192_EDE3_CBC_WITH_MD5" "DES_EDE3_CBC_192"
]

/-- `BY_CODE`: the dictionary `dict((cipher.code, cipher) for cipher in
CIPHERSUITES)`.  A Python dict comprehension keeps the last binding for a
duplicated key, so lookup scans the reversed list. -/
def BY_CODE (code : Nat) : Option CipherSuite :=
  List.find? (fun s => s.code == code) CIPHERSUITES.reverse

/-- `BY_NAME`: lookup in the lazily built dictionary
`dict((suite.name, suite) for suite in CIPHERSUITES)`; again the last
binding for a duplicated key wins. -/
def BY_NAME (nm : String) : Option CipherSuite :=
  List.find? (fun s => s.name == nm) CIPHERSUITES.reverse
def tableCodes : List Nat :=
  [0x00ff, 0x5600, 0xffff, 0x0000, 0x0001, 0x0002, 0x0003, 0x0004,
   0x0005, 0x0006, 0x0007, 0x0008, 0x0009, 0x000a, 0x000b, 0x000c,
   0x000d, 0x000e, 0x000f, 0x0010, 0x0011, 0x0012, 0x0013, 0x0014,
   0x0015, 0x0016, 0x0017, 0x0018, 0x0019, 0x001a, 0x001b, 0x001e,
   0x001f, 0x0020, 0x0021, 0x0022, 0x0023, 0x0024, 0x0025, 0x0026,
   0x0027, 0x0028, 0x0029, 0x002a, 0x002b, 0x002c, 0x002d, 0x002e,
   0x002f, 0x0030, 0x0031, 0x0032, 0x0033, 0x0034, 0x0035, 0x0036,
   0x0037, 0x0038, 0x0039, 0x003a, 0x003b, 0x003c, 0x003d, 0x003e,
   0x003f, 0x0040, 0x0041, 0x0042, 0x0043, 0x0044, 0x0045, 0x0046,
   0x0067, 0x0068, 0x0069, 0x006a, 0x006b, 0x006c, 0x006d, 0x0084,
   0x0085, 0x0086, 0x0087, 0x0088, 0x0089, 0x008a, 0x008b, 0x008c,
   0x008d, 0x008e, 0x008f, 0x0090, 0x0091, 0x0092, 0x0093, 0x0094,
   0x0095, 0x0096, 0x0097, 0x0098, 0x0099, 0x009a, 0x009b, 0x009c,
   0x009d, 0x009e, 0x009f, 0x00a0, 0x00a1, 0x00a2, 0x00a3, 0x00a4,
   0x00a5, 0x00a6, 0x00a7, 0x00a8, 0x00a9, 0x00aa, 0x00ab, 0x00ac,
   0x00ad, 0x00ae, 0x00af, 0x00b0, 0x00b1, 0x00b2, 0x00b3, 0x00b4,
   0x00b5, 0x00b6, 0x00b7, 0x00b8, 0x00b9, 0x00ba, 0x00bb, 0x00bc,
   0x00bd, 0x00be, 0x00bf, 0x00c0, 0x00c1, 0x00c2, 0x00c3, 0x00c4,
   0x00c5, 0xc001, 0xc002, 0xc003, 0xc004, 0xc005, 0xc006, 0xc007,
   0xc008, 0xc009, 0xc00a, 0xc00b, 0xc00c, 0xc00d, 0xc00e, 0xc00f,
   0xc010, 0xc011, 0xc012, 0xc013, 0xc014, 0xc015, 0xc016, 0xc017,
   0xc018, 0xc019, 0xc01a, 0xc01b, 0xc01c, 0xc01d, 0xc01e, 0xc01f,
   0xc020, 0xc021, 0xc022, 0xc023, 0xc024, 0xc025, 0xc026, 0xc027,
   0xc028, 0xc029, 0xc02a, 0xc02b, 0xc02c, 0xc02d, 0xc02e, 0xc02f,
   0xc030, 0xc031, 0xc032, 0xc033, 0xc034, 0xc035, 0xc036, 0xc037,
   0xc038, 0xc039, 0xc03a, 0xc03b, 0xc03c, 0xc03d, 0xc03e, 0xc03f,
   0xc040, 0xc041, 0xc042, 0xc043, 0xc044, 0xc045, 0xc046, 0xc047,
   0xc048, 0xc049, 0xc04a, 0xc04b, 0xc04c, 0xc04d, 0xc04e, 0xc04f,
   0xc050, 0xc051, 0xc052, 0xc053, 0xc054, 0xc055, 0xc056, 0xc057,
   0xc058, 0xc059, 0xc05a, 0xc05b, 0xc05c, 0xc05d, 0xc05e, 0xc05f,
   0xc060, 0xc061, 0xc062, 0xc063, 0xc064, 0xc065, 0xc066, 0xc067,
   0xc068, 0xc069, 0xc06a, 0xc06b, 0xc06c, 0xc06d, 0xc06e, 0xc06f,
   0xc070, 0xc071, 0xc072, 0xc073, 0xc074, 0xc075, 0xc076, 0xc077,
   0xc078, 0xc079, 0xc07a, 0xc07b, 0xc07c, 0xc07d, 0xc07e, 0xc07f,
   0xc080, 0xc081, 0xc082, 0xc083, 0xc084, 0xc085, 0xc086, 0xc087,
   0xc088, 0xc089, 0xc08a, 0xc08b, 0xc08c, 0xc08d, 0xc08e, 0xc08f,
   0xc090, 0xc091, 0xc092, 0xc093, 0xc094, 0xc095, 0xc096, 0xc097,
   0xc098, 0xc099, 0xc09a, 0xc09b, 0xc09c, 0xc09d, 0xc09e, 0xc09f,
   0xc0a0, 0xc0a1, 0xc0a2, 0xc0a3, 0xc0a4, 0xc0a5, 0xc0a6, 0xc0a7,
   0xc0a8, 0xc0a9, 0xc0aa, 0xc0ab, 0xc0ac, 0xc0ad, 0xc0ae, 0xc0af,
   0xcc13, 0xcc14, 0xcc15, 0xcca8, 0xcca9, 0xccaa, 0xccab, 0xccac,
   0xccad, 0xccae, 0x010080, 0x020080, 0x030080, 0x040080, 0x050080, 0x060040,
   0x0700C0]

def tableNames : List String :=
  ["TLS_EMPTY_RENEGOTIATION_INFO",
   "TLS_FALLBACK",
   "UNKNOWN_CIPHER",
   "TLS_NULL_WITH_NULL_NULL",
   "TLS_RSA_WITH_NULL_MD5",
   "TLS_RSA_WITH_NULL_SHA",
   "TLS_RSA_EXPORT_WITH_RC4_40_MD5",
   "TLS_RSA_WITH_RC4_128_MD5",
   "TLS_RSA_WITH_RC4_128_SHA",
   "TLS_RSA_EXPORT_WITH_RC2_CBC_40_MD5",
   "TLS_RSA_WITH_IDEA_CBC_SHA",
   "TLS_RSA_EXPORT_WITH_DES40_CBC_SHA",
   "TLS_RSA_WITH_DES_CBC_SHA",
   "TLS_RSA_WITH_3DES_EDE_CBC_SHA",
   "TLS_DH_DSS_EXPORT_WITH_DES40_CBC_SHA",
   "TLS_DH_DSS_WITH_DES_CBC_SHA",
   "TLS_DH_DSS_WITH_3DES_EDE_CBC_SHA",
   "TLS_DH_RSA_EXPORT_WITH_DES40_CBC_SHA",
   "TLS_DH_RSA_WITH_DES_CBC_SHA",
   "TLS_DH_RSA_WITH_3DES_EDE_CBC_SHA",
   "TLS_DHE_DSS_EXPORT_WITH_DES40_CBC_SHA",
   "TLS_DHE_DSS_WITH_DES_CBC_SHA",
   "TLS_DHE_DSS_WITH_3DES_EDE_CBC_SHA",
   "TLS_DHE_RSA_EXPORT_WITH_DES40_CBC_SHA",
   "TLS_DHE_RSA_WITH_DES_CBC_SHA",
   "TLS_DHE_RSA_WITH_3DES_EDE_CBC_SHA",
   "TLS_DH_anon_EXPORT_WITH_RC4_40_MD5",
   "TLS_DH_anon_WITH_RC4_128_MD5",
   "TLS_DH_anon_EXPORT_WITH_DES40_CBC_SHA",
   "TLS_DH_anon_WITH_DES_CBC_SHA",
   "TLS_DH_anon_WITH_3DES_EDE_CBC_SHA",
   "TLS_KRB5_WITH_DES_CBC_SHA",
   "TLS_KRB5_WITH_3DES_EDE_CBC_SHA",
   "TLS_KRB5_WITH_RC4_128_SHA",
   "TLS_KRB5_WITH_IDEA_CBC_SHA",
   "TLS_KRB5_WITH_DES_CBC_MD5",
   "TLS_KRB5_WITH_3DES_EDE_CBC_MD5",
   "TLS_KRB5_WITH_RC4_128_MD5",
   "TLS_KRB5_WITH_IDEA_CBC_MD5",
   "TLS_KRB5_EXPORT_WITH_DES_CBC_40_SHA",
   "TLS_KRB5_EXPORT_WITH_RC2_CBC_40_SHA",
   "TLS_KRB5_EXPORT_WITH_RC4_40_SHA",
   "TLS_KRB5_EXPORT_WITH_DES_CBC_40_MD5",
   "TLS_KRB5_EXPORT_WITH_RC2_CBC_40_MD5",
   "TLS_KRB5_EXPORT_WITH_RC4_40_MD5",
   "TLS_PSK_WITH_NULL_SHA",
   "TLS_DHE_PSK_WITH_NULL_SHA",
   "TLS_RSA_PSK_WITH_NULL_SHA",
   "TLS_RSA_WITH_AES_128_CBC_SHA",
   "TLS_DH_DSS_WITH_AES_128_CBC_SHA",
   "TLS_DH_RSA_WITH_AES_128_CBC_SHA",
   "TLS_DHE_DSS_WITH_AES_128_CBC_SHA",
   "TLS_DHE_RSA_WITH_AES_128_CBC_SHA",
   "TLS_DH_anon_WITH_AES_128_CBC_SHA",
   "TLS_RSA_WITH_AES_256_CBC_SHA",
   "TLS_DH_DSS_WITH_AES_256_CBC_SHA",
   "TLS_DH_RSA_WITH_AES_256_CBC_SHA",
   "TLS_DHE_DSS_WITH_AES_256_CBC_SHA",
   "TLS_DHE_RSA_WITH_AES_256_CBC_SHA",
   "TLS_DH_anon_WITH_AES_256_CBC_SHA",
   "TLS_RSA_WITH_NULL_SHA256",
   "TLS_RSA_WITH_AES_128_CBC_SHA256",
   "TLS_RSA_WITH_AES_256_CBC_SHA256",
   "TLS_DH_DSS_WITH_AES_128_CBC_SHA256",
   "TLS_DH_RSA_WITH_AES_128_CBC_SHA256",
   "TLS_DHE_DSS_WITH_AES_128_CBC_SHA256",
   "TLS_RSA_WITH_CAMELLIA_128_CBC_SHA",
   "TLS_DH_DSS_WITH_CAMELLIA_128_CBC_SHA",
   "TLS_DH_RSA_WITH_CAMELLIA_128_CBC_SHA",
   "TLS_DHE_DSS_WITH_CAMELLIA_128_CBC_SHA",
   "TLS_DHE_RSA_WITH_CAMELLIA_128_CBC_SHA",
   "TLS_DH_anon_WITH_CAMELLIA_128_CBC_SHA",
   "TLS_DHE_RSA_WITH_AES_128_CBC_SHA256",
   "TLS_DH_DSS_WITH_AES_256_CBC_SHA256",
   "TLS_DH_RSA_WITH_AES_256_CBC_SHA256",
   "TLS_DHE_DSS_WITH_AES_256_CBC_SHA256",
   "TLS_DHE_RSA_WITH_AES_256_CBC_SHA256",
   "TLS_DH_anon_WITH_AES_128_CBC_SHA256",
   "TLS_DH_anon_WITH_AES_256_CBC_SHA256",
   "TLS_RSA_WITH_CAMELLIA_256_CBC_SHA",
   "TLS_DH_DSS_WITH_CAMELLIA_256_CBC_SHA",
   "TLS_DH_RSA_WITH_CAMELLIA_256_CBC_SHA",
   "TLS_DHE_DSS_WITH_CAMELLIA_256_CBC_SHA",
   "TLS_DHE_RSA_WITH_CAMELLIA_256_CBC_SHA",
   "TLS_DH_anon_WITH_CAMELLIA_256_CBC_SHA",
   "TLS_PSK_WITH_RC4_128_SHA",
   "TLS_PSK_WITH_3DES_EDE_CBC_SHA",
   "TLS_PSK_WITH_AES_128_CBC_SHA",
   "TLS_PSK_WITH_AES_256_CBC_SHA",
   "TLS_DHE_PSK_WITH_RC4_128_SHA",
   "TLS_DHE_PSK_WITH_3DES_EDE_CBC_SHA",
   "TLS_DHE_PSK_WITH_AES_128_CBC_SHA",
   "TLS_DHE_PSK_WITH_AES_256_CBC_SHA",
   "TLS_RSA_PSK_WITH_RC4_128_SHA",
   "TLS_RSA_PSK_WITH_3DES_EDE_CBC_SHA",
   "TLS_RSA_PSK_WITH_AES_128_CBC_SHA",
   "TLS_RSA_PSK_WITH_AES_256_CBC_SHA",
   "TLS_RSA_WITH_SEED_CBC_SHA",
   "TLS_DH_DSS_WITH_SEED_CBC_SHA",
   "TLS_DH_RSA_WITH_SEED_CBC_SHA",
   "TLS_DHE_DSS_WITH_SEED_CBC_SHA",
   "TLS_DHE_RSA_WITH_SEED_CBC_SHA",
   "TLS_DH_anon_WITH_SEED_CBC_SHA",
   "TLS_RSA_WITH_AES_128_GCM_SHA256",
   "TLS_RSA_WITH_AES_256_GCM_SHA384",
   "TLS_DHE_RSA_WITH_AES_128_GCM_SHA256",
   "TLS_DHE_RSA_WITH_AES_256_GCM_SHA384",
   "TLS_DH_RSA_WITH_AES_128_GCM_SHA256",
   "TLS_DH_RSA_WITH_AES_256_GCM_SHA384",
   "TLS_DHE_DSS_WITH_AES_128_GCM_SHA256",
   "TLS_DHE_DSS_WITH_AES_256_GCM_SHA384",
   "TLS_DH_DSS_WITH_AES_128_GCM_SHA256",
   "TLS_DH_DSS_WITH_AES_256_GCM_SHA384",
   "TLS_DH_anon_WITH_AES_128_GCM_SHA256",
   "TLS_DH_anon_WITH_AES_256_GCM_SHA384",
   "TLS_PSK_WITH_AES_128_GCM_SHA256",
   "TLS_PSK_WITH_AES_256_GCM_SHA384",
   "TLS_DHE_PSK_WITH_AES_128_GCM_SHA256",
   "TLS_DHE_PSK_WITH_AES_256_GCM_SHA384",
   "TLS_RSA_PSK_WITH_AES_128_GCM_SHA256",
   "TLS_RSA_PSK_WITH_AES_256_GCM_SHA384",
   "TLS_PSK_WITH_AES_128_CBC_SHA256",
   "TLS_PSK_WITH_AES_256_CBC_SHA384",
   "TLS_PSK_WITH_NULL_SHA256",
   "TLS_PSK_WITH_NULL_SHA384",
   "TLS_DHE_PSK_WITH_AES_128_CBC_SHA256",
   "TLS_DHE_PSK_WITH_AES_256_CBC_SHA384",
   "TLS_DHE_PSK_WITH_NULL_SHA256",
   "TLS_DHE_PSK_WITH_NULL_SHA384",
   "TLS_RSA_PSK_WITH_AES_128_CBC_SHA256",
   "TLS_RSA_PSK_WITH_AES_256_CBC_SHA384",
   "TLS_RSA_PSK_WITH_NULL_SHA256",
   "TLS_RSA_PSK_WITH_NULL_SHA384",
   "TLS_RSA_WITH_CAMELLIA_128_CBC_SHA256",
   "TLS_DH_DSS_WITH_CAMELLIA_128_CBC_SHA256",
   "TLS_DH_RSA_WITH_CAMELLIA_128_CBC_SHA256",
   "TLS_DHE_DSS_WITH_CAMELLIA_128_CBC_SHA256",
   "TLS_DHE_RSA_WITH_CAMELLIA_128_CBC_SHA256",
   "TLS_DH_anon_WITH_CAMELLIA_128_CBC_SHA256",
   "TLS_RSA_WITH_CAMELLIA_256_CBC_SHA256",
   "TLS_DH_DSS_WITH_CAMELLIA_256_CBC_SHA256",
   "TLS_DH_RSA_WITH_CAMELLIA_256_CBC_SHA256",
   "TLS_DHE_DSS_WITH_CAMELLIA_256_CBC_SHA256",
   "TLS_DHE_RSA_WITH_CAMELLIA_256_CBC_SHA256",
   "TLS_DH_anon_WITH_CAMELLIA_256_CBC_SHA256",
   "TLS_ECDH_ECDSA_WITH_NULL_SHA",
   "TLS_ECDH_ECDSA_WITH_RC4_128_SHA",
   "TLS_ECDH_ECDSA_WITH_3DES_EDE_CBC_SHA",
   "TLS_ECDH_ECDSA_WITH_AES_128_CBC_SHA",
   "TLS_ECDH_ECDSA_WITH_AES_256_CBC_SHA",
   "TLS_ECDHE_ECDSA_WITH_NULL_SHA",
   "TLS_ECDHE_ECDSA_WITH_RC4_128_SHA",
   "TLS_ECDHE_ECDSA_WITH_3DES_EDE_CBC_SHA",
   "TLS_ECDHE_ECDSA_WITH_AES_128_CBC_SHA",
   "TLS_ECDHE_ECDSA_WITH_AES_256_CBC_SHA",
   "TLS_ECDH_RSA_WITH_NULL_SHA",
   "TLS_ECDH_RSA_WITH_RC4_128_SHA",
   "TLS_ECDH_RSA_WITH_3DES_EDE_CBC_SHA",
   "TLS_ECDH_RSA_WITH_AES_128_CBC_SHA",
   "TLS_ECDH_RSA_WITH_AES_256_CBC_SHA",
   "TLS_ECDHE_RSA_WITH_NULL_SHA",
   "TLS_ECDHE_RSA_WITH_RC4_128_SHA",
   "TLS_ECDHE_RSA_WITH_3DES_EDE_CBC_SHA",
   "TLS_ECDHE_RSA_WITH_AES_128_CBC_SHA",
   "TLS_ECDHE_RSA_WITH_AES_256_CBC_SHA",
   "TLS_ECDH_anon_WITH_NULL_SHA",
   "TLS_ECDH_anon_WITH_RC4_128_SHA",
   "TLS_ECDH_anon_WITH_3DES_EDE_CBC_SHA",
   "TLS_ECDH_anon_WITH_AES_128_CBC_SHA",
   "TLS_ECDH_anon_WITH_AES_256_CBC_SHA",
   "TLS_SRP_SHA_WITH_3DES_EDE_CBC_SHA",
   "TLS_SRP_SHA_RSA_WITH_3DES_EDE_CBC_SHA",
   "TLS_SRP_SHA_DSS_WITH_3DES_EDE_CBC_SHA",
   "TLS_SRP_SHA_WITH_AES_128_CBC_SHA",
   "TLS_SRP_SHA_RSA_WITH_AES_128_CBC_SHA",
   "TLS_SRP_SHA_DSS_WITH_AES_128_CBC_SHA",
   "TLS_SRP_SHA_WITH_AES_256_CBC_SHA",
   "TLS_SRP_SHA_RSA_WITH_AES_256_CBC_SHA",
   "TLS_SRP_SHA_DSS_WITH_AES_256_CBC_SHA",
   "TLS_ECDHE_ECDSA_WITH_AES_128_CBC_SHA256",
   "TLS_ECDHE_ECDSA_WITH_AES_256_CBC_SHA384",
   "TLS_ECDH_ECDSA_WITH_AES_128_CBC_SHA256",
   "TLS_ECDH_ECDSA_WITH_AES_256_CBC_SHA384",
   "TLS_ECDHE_RSA_WITH_AES_128_CBC_SHA256",
   "TLS_ECDHE_RSA_WITH_AES_256_CBC_SHA384",
   "TLS_ECDH_RSA_WITH_AES_128_CBC_SHA256",
   "TLS_ECDH_RSA_WITH_AES_256_CBC_SHA384",
   "TLS_ECDHE_ECDSA_WITH_AES_128_GCM_SHA256",
   "TLS_ECDHE_ECDSA_WITH_AES_256_GCM_SHA384",
   "TLS_ECDH_ECDSA_WITH_AES_128_GCM_SHA256",
   "TLS_ECDH_ECDSA_WITH_AES_256_GCM_SHA384",
   "TLS_ECDHE_RSA_WITH_AES_128_GCM_SHA256",
   "TLS_ECDHE_RSA_WITH_AES_256_GCM_SHA384",
   "TLS_ECDH_RSA_WITH_AES_128_GCM_SHA256",
   "TLS_ECDH_RSA_WITH_AES_256_GCM_SHA384",
   "TLS_ECDHE_PSK_WITH_RC4_128_SHA",
   "TLS_ECDHE_PSK_WITH_3DES_EDE_CBC_SHA",
   "TLS_ECDHE_PSK_WITH_AES_128_CBC_SHA",
   "TLS_ECDHE_PSK_WITH_AES_256_CBC_SHA",
   "TLS_ECDHE_PSK_WITH_AES_128_CBC_SHA256",
   "TLS_ECDHE_PSK_WITH_AES_256_CBC_SHA384",
   "TLS_ECDHE_PSK_WITH_NULL_SHA",
   "TLS_ECDHE_PSK_WITH_NULL_SHA256",
   "TLS_ECDHE_PSK_WITH_NULL_SHA384",
   "TLS_RSA_WITH_ARIA_128_CBC_SHA256",
   "TLS_RSA_WITH_ARIA_256_CBC_SHA384",
   "TLS_DH_DSS_WITH_ARIA_128_CBC_SHA256",
   "TLS_DH_DSS_WITH_ARIA_256_CBC_SHA384",
   "TLS_DH_RSA_WITH_ARIA_128_CBC_SHA256",
   "TLS_DH_RSA_WITH_ARIA_256_CBC_SHA384",
   "TLS_DHE_DSS_WITH_ARIA_128_CBC_SHA256",
   "TLS_DHE_DSS_WITH_ARIA_256_CBC_SHA384",
   "TLS_DHE_RSA_WITH_ARIA_128_CBC_SHA256",
   "TLS_DHE_RSA_WITH_ARIA_256_CBC_SHA384",
   "TLS_DH_anon_WITH_ARIA_128_CBC_SHA256",
   "TLS_DH_anon_WITH_ARIA_256_CBC_SHA384",
   "TLS_ECDHE_ECDSA_WITH_ARIA_128_CBC_SHA256",
   "TLS_ECDHE_ECDSA_WITH_ARIA_256_CBC_SHA384",
   "TLS_ECDH_ECDSA_WITH_ARIA_128_CBC_SHA256",
   "TLS_ECDH_ECDSA_WITH_ARIA_256_CBC_SHA384",
   "TLS_ECDHE_RSA_WITH_ARIA_128_CBC_SHA256",
   "TLS_ECDHE_RSA_WITH_ARIA_256_CBC_SHA384",
   "TLS_ECDH_RSA_WITH_ARIA_128_CBC_SHA256",
   "TLS_ECDH_RSA_WITH_ARIA_256_CBC_SHA384",
   "TLS_RSA_WITH_ARIA_128_GCM_SHA256",
   "TLS_RSA_WITH_ARIA_256_GCM_SHA384",
   "TLS_DHE_RSA_WITH_ARIA_128_GCM_SHA256",
   "TLS_DHE_RSA_WITH_ARIA_256_GCM_SHA384",
   "TLS_DH_RSA_WITH_ARIA_128_GCM_SHA256",
   "TLS_DH_RSA_WITH_ARIA_256_GCM_SHA384",
   "TLS_DHE_DSS_WITH_ARIA_128_GCM_SHA256",
   "TLS_DHE_DSS_WITH_ARIA_256_GCM_SHA384",
   "TLS_DH_DSS_WITH_ARIA_128_GCM_SHA256",
   "TLS_DH_DSS_WITH_ARIA_256_GCM_SHA384",
   "TLS_DH_anon_WITH_ARIA_128_GCM_SHA256",
   "TLS_DH_anon_WITH_ARIA_256_GCM_SHA384",
   "TLS_ECDHE_ECDSA_WITH_ARIA_128_GCM_SHA256",
   "TLS_ECDHE_ECDSA_WITH_ARIA_256_GCM_SHA384",
   "TLS_ECDH_ECDSA_WITH_ARIA_128_GCM_SHA256",
   "TLS_ECDH_ECDSA_WITH_ARIA_256_GCM_SHA384",
   "TLS_ECDHE_RSA_WITH_ARIA_128_GCM_SHA256",
   "TLS_ECDHE_RSA_WITH_ARIA_256_GCM_SHA384",
   "TLS_ECDH_RSA_WITH_ARIA_128_GCM_SHA256",
   "TLS_ECDH_RSA_WITH_ARIA_256_GCM_SHA384",
   "TLS_PSK_WITH_ARIA_128_CBC_SHA256",
   "TLS_PSK_WITH_ARIA_256_CBC_SHA384",
   "TLS_DHE_PSK_WITH_ARIA_128_CBC_SHA256",
   "TLS_DHE_PSK_WITH_ARIA_256_CBC_SHA384",
   "TLS_RSA_PSK_WITH_ARIA_128_CBC_SHA256",
   "TLS_RSA_PSK_WITH_ARIA_256_CBC_SHA384",
   "TLS_PSK_WITH_ARIA_128_GCM_SHA256",
   "TLS_PSK_WITH_ARIA_256_GCM_SHA384",
   "TLS_DHE_PSK_WITH_ARIA_128_GCM_SHA256",
   "TLS_DHE_PSK_WITH_ARIA_256_GCM_SHA384",
   "TLS_RSA_PSK_WITH_ARIA_128_GCM_SHA256",
   "TLS_RSA_PSK_WITH_ARIA_256_GCM_SHA384",
   "TLS_ECDHE_PSK_WITH_ARIA_128_GCM_SHA256",
   "TLS_ECDHE_PSK_WITH_ARIA_256_GCM_SHA384",
   "TLS_ECDHE_ECDSA_WITH_CAMELLIA_128_CBC_SHA256",
   "TLS_ECDHE_ECDSA_WITH_CAMELLIA_256_CBC_SHA384",
   "TLS_ECDH_ECDSA_WITH_CAMELLIA_128_CBC_SHA256",
   "TLS_ECDH_ECDSA_WITH_CAMELLIA_256_CBC_SHA384",
   "TLS_ECDHE_RSA_WITH_CAMELLIA_128_CBC_SHA256",
   "TLS_ECDHE_RSA_WITH_CAMELLIA_256_CBC_SHA384",
   "TLS_ECDH_RSA_WITH_CAMELLIA_128_CBC_SHA256",
   "TLS_ECDH_RSA_WITH_CAMELLIA_256_CBC_SHA384",
   "TLS_RSA_WITH_CAMELLIA_128_GCM_SHA256",
   "TLS_RSA_WITH_CAMELLIA_256_GCM_SHA384",
   "TLS_DHE_RSA_WITH_CAMELLIA_128_GCM_SHA256",
   "TLS_DHE_RSA_WITH_CAMELLIA_256_GCM_SHA384",
   "TLS_DH_RSA_WITH_CAMELLIA_128_GCM_SHA256",
   "TLS_DH_RSA_WITH_CAMELLIA_256_GCM_SHA384",
   "TLS_DHE_DSS_WITH_CAMELLIA_128_GCM_SHA256",
   "TLS_DHE_DSS_WITH_CAMELLIA_256_GCM_SHA384",
   "TLS_DH_DSS_WITH_CAMELLIA_128_GCM_SHA256",
   "TLS_DH_DSS_WITH_CAMELLIA_256_GCM_SHA384",
   "TLS_DH_anon_WITH_CAMELLIA_128_GCM_SHA256",
   "TLS_DH_anon_WITH_CAMELLIA_256_GCM_SHA384",
   "TLS_ECDHE_ECDSA_WITH_CAMELLIA_128_GCM_SHA256",
   "TLS_ECDHE_ECDSA_WITH_CAMELLIA_256_GCM_SHA384",
   "TLS_ECDH_ECDSA_WITH_CAMELLIA_128_GCM_SHA256",
   "TLS_ECDH_ECDSA_WITH_CAMELLIA_256_GCM_SHA384",
   "TLS_ECDHE_RSA_WITH_CAMELLIA_128_GCM_SHA256",
   "TLS_ECDHE_RSA_WITH_CAMELLIA_256_GCM_SHA384",
   "TLS_ECDH_RSA_WITH_CAMELLIA_128_GCM_SHA256",
   "TLS_ECDH_RSA_WITH_CAMELLIA_256_GCM_SHA384",
   "TLS_PSK_WITH_CAMELLIA_128_GCM_SHA256",
   "TLS_PSK_WITH_CAMELLIA_256_GCM_SHA384",
   "TLS_DHE_PSK_WITH_CAMELLIA_128_GCM_SHA256",
   "TLS_DHE_PSK_WITH_CAMELLIA_256_GCM_SHA384",
   "TLS_RSA_PSK_WITH_CAMELLIA_128_GCM_SHA256",
   "TLS_RSA_PSK_WITH_CAMELLIA_256_GCM_SHA384",
   "TLS_PSK_WITH_CAMELLIA_128_CBC_SHA256",
   "TLS_PSK_WITH_CAMELLIA_256_CBC_SHA384",
   "TLS_DHE_PSK_WITH_CAMELLIA_128_CBC_SHA256",
   "TLS_DHE_PSK_WITH_CAMELLIA_256_CBC_SHA384",
   "TLS_RSA_PSK_WITH_CAMELLIA_128_CBC_SHA256",
   "TLS_RSA_PSK_WITH_CAMELLIA_256_CBC_SHA384",
   "TLS_ECDHE_PSK_WITH_CAMELLIA_128_CBC_SHA256",
   "TLS_ECDHE_PSK_WITH_CAMELLIA_256_CBC_SHA384",
   "TLS_RSA_WITH_AES_128_CCM",
   "TLS_RSA_WITH_AES_256_CCM",
   "TLS_DHE_RSA_WITH_AES_128_CCM",
   "TLS_DHE_RSA_WITH_AES_256_CCM",
   "TLS_RSA_WITH_AES_128_CCM_8",
   "TLS_RSA_WITH_AES_256_CCM_8",
   "TLS_DHE_RSA_WITH_AES_128_CCM_8",
   "TLS_DHE_RSA_WITH_AES_256_CCM_8",
   "TLS_PSK_WITH_AES_128_CCM",
   "TLS_PSK_WITH_AES_256_CCM",
   "TLS_DHE_PSK_WITH_AES_128_CCM",
   "TLS_DHE_PSK_WITH_AES_256_CCM",
   "TLS_PSK_WITH_AES_128_CCM_8",
   "TLS_PSK_WITH_AES_256_CCM_8",
   "TLS_DHE_PSK_WITH_AES_128_CCM_8",
   "TLS_DHE_PSK_WITH_AES_256_CCM_8",
   "TLS_ECDHE_ECDSA_WITH_AES_128_CCM",
   "TLS_ECDHE_ECDSA_WITH_AES_256_CCM",
   "TLS_ECDHE_ECDSA_WITH_AES_128_CCM_8",
   "TLS_ECDHE_ECDSA_WITH_AES_256_CCM_8",
   "OLD_TLS_ECDHE_RSA_WITH_CHACHA20_POLY1305_SHA256",
   "OLD_TLS_ECDHE_ECDSA_WITH_CHACHA20_POLY1305_SHA256",
   "OLD_TLS_DHE_RSA_WITH_CHACHA20_POLY1305_SHA256",
   "TLS_ECDHE_RSA_WITH_CHACHA20_POLY1305_SHA256",
   "TLS_ECDHE_ECDSA_WITH_CHACHA20_POLY1305_SHA256",
   "TLS_DHE_RSA_WITH_CHACHA20_POLY1305_SHA256",
   "TLS_PSK_WITH_CHACHA20_POLY1305_SHA256",
   "TLS_ECDHE_PSK_WITH_CHACHA20_POLY1305_SHA256",
   "TLS_DHE_PSK_WITH_CHACHA20_POLY1305_SHA256",
   "TLS_RSA_PSK_WITH_CHACHA20_POLY1305_SHA256",
   "SSL_CK_RC4_128_WITH_MD5",
   "SSL_CK_RC4_128_EXPORT40_WITH_MD5",
   "SSL_CK_RC2_128_CBC_WITH_MD5",
   "SSL_CK_RC2_128_CBC_EXPORT40_WITH_MD5",
   "SSL_CK_IDEA_128_CBC_WITH_MD5",
   "SSL_CK_DES_64_CBC_WITH_MD5",
   "SSL_CK_DES_192_EDE3_CBC_WITH_MD5"]
def idxN : List Nat :=
  [322, 321, 320, 336, 335, 334, 333, 332, 331, 330,
   20, 22, 51, 65, 109, 57, 75, 110, 210, 230,
   211, 231, 69, 136, 272, 82, 142, 273, 21, 100,
   90, 91, 125, 310, 314, 117, 92, 126, 311, 315,
   118, 246, 252, 247, 253, 294, 288, 295, 289, 328,
   46, 127, 128, 89, 23, 25, 52, 72, 302, 306,
   105, 58, 76, 303, 307, 106, 212, 226, 213, 227,
   70, 137, 268, 83, 143, 269, 325, 24, 101, 14,
   16, 49, 63, 111, 55, 73, 112, 206, 232, 207,
   233, 67, 134, 274, 80, 140, 275, 15, 98, 17,
   19, 50, 64, 107, 56, 74, 108, 208, 228, 209,
   229, 68, 135, 270, 81, 141, 271, 18, 99, 28,
   26, 30, 53, 77, 113, 59, 78, 114, 214, 234,
   215, 235, 71, 138, 276, 84, 144, 277, 29, 27,
   102, 152, 153, 179, 316, 318, 187, 154, 180, 317,
   319, 188, 216, 236, 217, 237, 258, 278, 259, 279,
   324, 150, 151, 196, 197, 199, 198, 200, 256, 257,
   298, 299, 327, 201, 202, 203, 195, 162, 163, 183,
   191, 164, 184, 192, 220, 240, 221, 241, 262, 282,
   263, 283, 323, 160, 161, 147, 148, 181, 189, 149,
   182, 190, 218, 238, 219, 239, 260, 280, 261, 281,
   145, 146, 157, 158, 185, 193, 159, 186, 194, 222,
   242, 223, 243, 264, 284, 265, 285, 155, 156, 167,
   168, 169, 165, 166, 0, 1, 42, 39, 43, 40,
   44, 41, 36, 32, 35, 31, 38, 34, 37, 33,
   3, 86, 87, 121, 308, 312, 115, 88, 122, 309,
   313, 116, 244, 250, 245, 251, 292, 286, 293, 287,
   326, 45, 123, 124, 85, 11, 9, 6, 94, 95,
   129, 119, 96, 130, 120, 248, 254, 249, 255, 296,
   290, 297, 291, 329, 47, 131, 132, 93, 13, 48,
   61, 300, 304, 103, 54, 62, 301, 305, 104, 204,
   224, 205, 225, 66, 133, 266, 79, 139, 267, 12,
   10, 4, 5, 60, 7, 8, 97, 172, 175, 178,
   171, 174, 177, 170, 173, 176, 2]

def idxC : List Nat :=
  [3, 4, 5, 6, 7, 8, 9, 10, 11, 12,
   13, 14, 15, 16, 17, 18, 19, 20, 21, 22,
   23, 24, 25, 26, 27, 28, 29, 30, 31, 32,
   33, 34, 35, 36, 37, 38, 39, 40, 41, 42,
   43, 44, 45, 46, 47, 48, 49, 50, 51, 52,
   53, 54, 55, 56, 57, 58, 59, 60, 61, 62,
   63, 64, 65, 66, 67, 68, 69, 70, 71, 72,
   73, 74, 75, 76, 77, 78, 79, 80, 81, 82,
   83, 84, 85, 86, 87, 88, 89, 90, 91, 92,
   93, 94, 95, 96, 97, 98, 99, 100, 101, 102,
   103, 104, 105, 106, 107, 108, 109, 110, 111, 112,
   113, 114, 115, 116, 117, 118, 119, 120, 121, 122,
   123, 124, 125, 126, 127, 128, 129, 130, 131, 132,
   133, 134, 135, 136, 137, 138, 139, 140, 141, 142,
   143, 144, 0, 1, 145, 146, 147, 148, 149, 150,
   151, 152, 153, 154, 155, 156, 157, 158, 159, 160,
   161, 162, 163, 164, 165, 166, 167, 168, 169, 170,
   171, 172, 173, 174, 175, 176, 177, 178, 179, 180,
   181, 182, 183, 184, 185, 186, 187, 188, 189, 190,
   191, 192, 193, 194, 195, 196, 197, 198, 199, 200,
   201, 202, 203, 204, 205, 206, 207, 208, 209, 210,
   211, 212, 213, 214, 215, 216, 217, 218, 219, 220,
   221, 222, 223, 224, 225, 226, 227, 228, 229, 230,
   231, 232, 233, 234, 235, 236, 237, 238, 239, 240,
   241, 242, 243, 244, 245, 246, 247, 248, 249, 250,
   251, 252, 253, 254, 255, 256, 257, 258, 259, 260,
   261, 262, 263, 264, 265, 266, 267, 268, 269, 270,
   271, 272, 273, 274, 275, 276, 277, 278, 279, 280,
   281, 282, 283, 284, 285, 286, 287, 288, 289, 290,
   291, 292, 293, 294, 295, 296, 297, 298, 299, 300,
   301, 302, 303, 304, 305, 306, 307, 308, 309, 310,
   311, 312, 313, 314, 315, 316, 317, 318, 319, 320,
   321, 322, 323, 324, 325, 326, 327, 328, 329, 2,
   330, 331, 332, 333, 334, 335, 336]

def rangeLit : List Nat :=
  [0, 1, 2, 3, 4, 5, 6, 7, 8, 9,
   10, 11, 12, 13, 14, 15, 16, 17, 18, 19,
   20, 21, 22, 23, 24, 25, 26, 27, 28, 29,
   30, 31, 32, 33, 34, 35, 36, 37, 38, 39,
   40, 41, 42, 43, 44, 45, 46, 47, 48, 49,
   50, 51, 52, 53, 54, 55, 56, 57, 58, 59,
   60, 61, 62, 63, 64, 65, 66, 67, 68, 69,
   70, 71, 72, 73, 74, 75, 76, 77, 78, 79,
   80, 81, 82, 83, 84, 85, 86, 87, 88, 89,
   90, 91, 92, 93, 94, 95, 96, 97, 98, 99,
   100, 101, 102, 103, 104, 105, 106, 107, 108, 109,
   110, 111, 112, 113, 114, 115, 116, 117, 118, 119,
   120, 121, 122, 123, 124, 125, 126, 127, 128, 129,
   130, 131, 132, 133, 134, 135, 136, 137, 138, 139,
   140, 141, 142, 143, 144, 145, 146, 147, 148, 149,
   150, 151, 152, 153, 154, 155, 156, 157, 158, 159,
   160, 161, 162, 163, 164, 165, 166, 167, 168, 169,
   170, 171, 172, 173, 174, 175, 176, 177, 178, 179,
   180, 181, 182, 183, 184, 185, 186, 187, 188, 189,
   190, 191, 192, 193, 194, 195, 196, 197, 198, 199,
   200, 201, 202, 203, 204, 205, 206, 207, 208, 209,
   210, 211, 212, 213, 214, 215, 216, 217, 218, 219,
   220, 221, 222, 223, 224, 225, 226, 227, 228, 229,
   230, 231, 232, 233, 234, 235, 236, 237, 238, 239,
   240, 241, 242, 243, 244, 245, 246, 247, 248, 249,
   250, 251, 252, 253, 254, 255, 256, 257, 258, 259,
   260, 261, 262, 263, 264, 265, 266, 267, 268, 269,
   270, 271, 272, 273, 274, 275, 276, 277, 278, 279,
   280, 281, 282, 283, 284, 285, 286, 287, 288, 289,
   290, 291, 292, 293, 294, 295, 296, 297, 298, 299,
   300, 301, 302, 303, 304, 305, 306, 307, 308, 309,
   310, 311, 312, 313, 314, 315, 316, 317, 318, 319,
   320, 321, 322, 323, 324, 325, 326, 327, 328, 329,
   330, 331, 332, 333, 334, 335, 336]

def sortedCodes : List Nat :=
  [0x0000, 0x0001, 0x0002, 0x0003, 0x0004, 0x0005, 0x0006, 0x0007,
   0x0008, 0x0009, 0x000a, 0x000b, 0x000c, 0x000d, 0x000e, 0x000f,
   0x0010, 0x0011, 0x0012, 0x0013, 0x0014, 0x0015, 0x0016, 0x0017,
   0x0018, 0x0019, 0x001a, 0x001b, 0x001e, 0x001f, 0x0020, 0x0021,
   0x0022, 0x0023, 0x0024, 0x0025, 0x0026, 0x0027, 0x0028, 0x0029,
   0x002a, 0x002b, 0x002c, 0x002d, 0x002e, 0x002f, 0x0030, 0x0031,
   0x0032, 0x0033, 0x0034, 0x0035, 0x0036, 0x0037, 0x0038, 0x0039,
   0x003a, 0x003b, 0x003c, 0x003d, 0x003e, 0x003f, 0x0040, 0x0041,
   0x0042, 0x0043, 0x0044, 0x0045, 0x0046, 0x0067, 0x0068, 0x0069,
   0x006a, 0x006b, 0x006c, 0x006d, 0x0084, 0x0085, 0x0086, 0x0087,
   0x0088, 0x0089, 0x008a, 0x008b, 0x008c, 0x008d, 0x008e, 0x008f,
   0x0090, 0x0091, 0x0092, 0x0093, 0x0094, 0x0095, 0x0096, 0x0097,
   0x0098, 0x0099, 0x009a, 0x009b, 0x009c, 0x009d, 0x009e, 0x009f,
   0x00a0, 0x00a1, 0x00a2, 0x00a3, 0x00a4, 0x00a5, 0x00a6, 0x00a7,
   0x00a8, 0x00a9, 0x00aa, 0x00ab, 0x00ac, 0x00ad, 0x00ae, 0x00af,
   0x00b0, 0x00b1, 0x00b2, 0x00b3, 0x00b4, 0x00b5, 0x00b6, 0x00b7,
   0x00b8, 0x00b9, 0x00ba, 0x00bb, 0x00bc, 0x00bd, 0x00be, 0x00bf,
   0x00c0, 0x00c1, 0x00c2, 0x00c3, 0x00c4, 0x00c5, 0x00ff, 0x5600,
   0xc001, 0xc002, 0xc003, 0xc004, 0xc005, 0xc006, 0xc007, 0xc008,
   0xc009, 0xc00a, 0xc00b, 0xc00c, 0xc00d, 0xc00e, 0xc00f, 0xc010,
   0xc011, 0xc012, 0xc013, 0xc014, 0xc015, 0xc016, 0xc017, 0xc018,
   0xc019, 0xc01a, 0xc01b, 0xc01c, 0xc01d, 0xc01e, 0xc01f, 0xc020,
   0xc021, 0xc022, 0xc023, 0xc024, 0xc025, 0xc026, 0xc027, 0xc028,
   0xc029, 0xc02a, 0xc02b, 0xc02c, 0xc02d, 0xc02e, 0xc02f, 0xc030,
   0xc031, 0xc032, 0xc033, 0xc034, 0xc035, 0xc036, 0xc037, 0xc038,
   0xc039, 0xc03a, 0xc03b, 0xc03c, 0xc03d, 0xc03e, 0xc03f, 0xc040,
   0xc041, 0xc042, 0xc043, 0xc044, 0xc045, 0xc046, 0xc047, 0xc048,
   0xc049, 0xc04a, 0xc04b, 0xc04c, 0xc04d, 0xc04e, 0xc04f, 0xc050,
   0xc051, 0xc052, 0xc053, 0xc054, 0xc055, 0xc056, 0xc057, 0xc058,
   0xc059, 0xc05a, 0xc05b, 0xc05c, 0xc05d, 0xc05e, 0xc05f, 0xc060,
   0xc061, 0xc062, 0xc063, 0xc064, 0xc065, 0xc066, 0xc067, 0xc068,
   0xc069, 0xc06a, 0xc06b, 0xc06c, 0xc06d, 0xc06e, 0xc06f, 0xc070,
   0xc071, 0xc072, 0xc073, 0xc074, 0xc075, 0xc076, 0xc077, 0xc078,
   0xc079, 0xc07a, 0xc07b, 0xc07c, 0xc07d, 0xc07e, 0xc07f, 0xc080,
   0xc081, 0xc082, 0xc083, 0xc084, 0xc085, 0xc086, 0xc087, 0xc088,
   0xc089, 0xc08a, 0xc08b, 0xc08c, 0xc08d, 0xc08e, 0xc08f, 0xc090,
   0xc091, 0xc092, 0xc093, 0xc094, 0xc095, 0xc096, 0xc097, 0xc098,
   0xc099, 0xc09a, 0xc09b, 0xc09c, 0xc09d, 0xc09e, 0xc09f, 0xc0a0,
   0xc0a1, 0xc0a2, 0xc0a3, 0xc0a4, 0xc0a5, 0xc0a6, 0xc0a7, 0xc0a8,
   0xc0a9, 0xc0aa, 0xc0ab, 0xc0ac, 0xc0ad, 0xc0ae, 0xc0af, 0xcc13,
   0xcc14, 0xcc15, 0xcca8, 0xcca9, 0xccaa, 0xccab, 0xccac, 0xccad,
   0xccae, 0xffff, 0x010080, 0x020080, 0x030080, 0x040080, 0x050080, 0x060040,
   0x0700C0]

def sortedNames : List String :=
  ["OLD_TLS_DHE_RSA_WITH_CHACHA20_POLY1305_SHA256",
   "OLD_TLS_ECDHE_ECDSA_WITH_CHACHA20_POLY1305_SHA256",
   "OLD_TLS_ECDHE_RSA_WITH_CHACHA20_POLY1305_SHA256",
   "SSL_CK_DES_192_EDE3_CBC_WITH_MD5",
   "SSL_CK_DES_64_CBC_WITH_MD5",
   "SSL_CK_IDEA_128_CBC_WITH_MD5",
   "SSL_CK_RC2_128_CBC_EXPORT40_WITH_MD5",
   "SSL_CK_RC2_128_CBC_WITH_MD5",
   "SSL_CK_RC4_128_EXPORT40_WITH_MD5",
   "SSL_CK_RC4_128_WITH_MD5",
   "TLS_DHE_DSS_EXPORT_WITH_DES40_CBC_SHA",
   "TLS_DHE_DSS_WITH_3DES_EDE_CBC_SHA",
   "TLS_DHE_DSS_WITH_AES_128_CBC_SHA",
   "TLS_DHE_DSS_WITH_AES_128_CBC_SHA256",
   "TLS_DHE_DSS_WITH_AES_128_GCM_SHA256",
   "TLS_DHE_DSS_WITH_AES_256_CBC_SHA",
   "TLS_DHE_DSS_WITH_AES_256_CBC_SHA256",
   "TLS_DHE_DSS_WITH_AES_256_GCM_SHA384",
   "TLS_DHE_DSS_WITH_ARIA_128_CBC_SHA256",
   "TLS_DHE_DSS_WITH_ARIA_128_GCM_SHA256",
   "TLS_DHE_DSS_WITH_ARIA_256_CBC_SHA384",
   "TLS_DHE_DSS_WITH_ARIA_256_GCM_SHA384",
   "TLS_DHE_DSS_WITH_CAMELLIA_128_CBC_SHA",
   "TLS_DHE_DSS_WITH_CAMELLIA_128_CBC_SHA256",
   "TLS_DHE_DSS_WITH_CAMELLIA_128_GCM_SHA256",
   "TLS_DHE_DSS_WITH_CAMELLIA_256_CBC_SHA",
   "TLS_DHE_DSS_WITH_CAMELLIA_256_CBC_SHA256",
   "TLS_DHE_DSS_WITH_CAMELLIA_256_GCM_SHA384",
   "TLS_DHE_DSS_WITH_DES_CBC_SHA",
   "TLS_DHE_DSS_WITH_SEED_CBC_SHA",
   "TLS_DHE_PSK_WITH_3DES_EDE_CBC_SHA",
   "TLS_DHE_PSK_WITH_AES_128_CBC_SHA",
   "TLS_DHE_PSK_WITH_AES_128_CBC_SHA256",
   "TLS_DHE_PSK_WITH_AES_128_CCM",
   "TLS_DHE_PSK_WITH_AES_128_CCM_8",
   "TLS_DHE_PSK_WITH_AES_128_GCM_SHA256",
   "TLS_DHE_PSK_WITH_AES_256_CBC_SHA",
   "TLS_DHE_PSK_WITH_AES_256_CBC_SHA384",
   "TLS_DHE_PSK_WITH_AES_256_CCM",
   "TLS_DHE_PSK_WITH_AES_256_CCM_8",
   "TLS_DHE_PSK_WITH_AES_256_GCM_SHA384",
   "TLS_DHE_PSK_WITH_ARIA_128_CBC_SHA256",
   "TLS_DHE_PSK_WITH_ARIA_128_GCM_SHA256",
   "TLS_DHE_PSK_WITH_ARIA_256_CBC_SHA384",
   "TLS_DHE_PSK_WITH_ARIA_256_GCM_SHA384",
   "TLS_DHE_PSK_WITH_CAMELLIA_128_CBC_SHA256",
   "TLS_DHE_PSK_WITH_CAMELLIA_128_GCM_SHA256",
   "TLS_DHE_PSK_WITH_CAMELLIA_256_CBC_SHA384",
   "TLS_DHE_PSK_WITH_CAMELLIA_256_GCM_SHA384",
   "TLS_DHE_PSK_WITH_CHACHA20_POLY1305_SHA256",
   "TLS_DHE_PSK_WITH_NULL_SHA",
   "TLS_DHE_PSK_WITH_NULL_SHA256",
   "TLS_DHE_PSK_WITH_NULL_SHA384",
   "TLS_DHE_PSK_WITH_RC4_128_SHA",
   "TLS_DHE_RSA_EXPORT_WITH_DES40_CBC_SHA",
   "TLS_DHE_RSA_WITH_3DES_EDE_CBC_SHA",
   "TLS_DHE_RSA_WITH_AES_128_CBC_SHA",
   "TLS_DHE_RSA_WITH_AES_128_CBC_SHA256",
   "TLS_DHE_RSA_WITH_AES_128_CCM",
   "TLS_DHE_RSA_WITH_AES_128_CCM_8",
   "TLS_DHE_RSA_WITH_AES_128_GCM_SHA256",
   "TLS_DHE_RSA_WITH_AES_256_CBC_SHA",
   "TLS_DHE_RSA_WITH_AES_256_CBC_SHA256",
   "TLS_DHE_RSA_WITH_AES_256_CCM",
   "TLS_DHE_RSA_WITH_AES_256_CCM_8",
   "TLS_DHE_RSA_WITH_AES_256_GCM_SHA384",
   "TLS_DHE_RSA_WITH_ARIA_128_CBC_SHA256",
   "TLS_DHE_RSA_WITH_ARIA_128_GCM_SHA256",
   "TLS_DHE_RSA_WITH_ARIA_256_CBC_SHA384",
   "TLS_DHE_RSA_WITH_ARIA_256_GCM_SHA384",
   "TLS_DHE_RSA_WITH_CAMELLIA_128_CBC_SHA",
   "TLS_DHE_RSA_WITH_CAMELLIA_128_CBC_SHA256",
   "TLS_DHE_RSA_WITH_CAMELLIA_128_GCM_SHA256",
   "TLS_DHE_RSA_WITH_CAMELLIA_256_CBC_SHA",
   "TLS_DHE_RSA_WITH_CAMELLIA_256_CBC_SHA256",
   "TLS_DHE_RSA_WITH_CAMELLIA_256_GCM_SHA384",
   "TLS_DHE_RSA_WITH_CHACHA20_POLY1305_SHA256",
   "TLS_DHE_RSA_WITH_DES_CBC_SHA",
   "TLS_DHE_RSA_WITH_SEED_CBC_SHA",
   "TLS_DH_DSS_EXPORT_WITH_DES40_CBC_SHA",
   "TLS_DH_DSS_WITH_3DES_EDE_CBC_SHA",
   "TLS_DH_DSS_WITH_AES_128_CBC_SHA",
   "TLS_DH_DSS_WITH_AES_128_CBC_SHA256",
   "TLS_DH_DSS_WITH_AES_128_GCM_SHA256",
   "TLS_DH_DSS_WITH_AES_256_CBC_SHA",
   "TLS_DH_DSS_WITH_AES_256_CBC_SHA256",
   "TLS_DH_DSS_WITH_AES_256_GCM_SHA384",
   "TLS_DH_DSS_WITH_ARIA_128_CBC_SHA256",
   "TLS_DH_DSS_WITH_ARIA_128_GCM_SHA256",
   "TLS_DH_DSS_WITH_ARIA_256_CBC_SHA384",
   "TLS_DH_DSS_WITH_ARIA_256_GCM_SHA384",
   "TLS_DH_DSS_WITH_CAMELLIA_128_CBC_SHA",
   "TLS_DH_DSS_WITH_CAMELLIA_128_CBC_SHA256",
   "TLS_DH_DSS_WITH_CAMELLIA_128_GCM_SHA256",
   "TLS_DH_DSS_WITH_CAMELLIA_256_CBC_SHA",
   "TLS_DH_DSS_WITH_CAMELLIA_256_CBC_SHA256",
   "TLS_DH_DSS_WITH_CAMELLIA_256_GCM_SHA384",
   "TLS_DH_DSS_WITH_DES_CBC_SHA",
   "TLS_DH_DSS_WITH_SEED_CBC_SHA",
   "TLS_DH_RSA_EXPORT_WITH_DES40_CBC_SHA",
   "TLS_DH_RSA_WITH_3DES_EDE_CBC_SHA",
   "TLS_DH_RSA_WITH_AES_128_CBC_SHA",
   "TLS_DH_RSA_WITH_AES_128_CBC_SHA256",
   "TLS_DH_RSA_WITH_AES_128_GCM_SHA256",
   "TLS_DH_RSA_WITH_AES_256_CBC_SHA",
   "TLS_DH_RSA_WITH_AES_256_CBC_SHA256",
   "TLS_DH_RSA_WITH_AES_256_GCM_SHA384",
   "TLS_DH_RSA_WITH_ARIA_128_CBC_SHA256",
   "TLS_DH_RSA_WITH_ARIA_128_GCM_SHA256",
   "TLS_DH_RSA_WITH_ARIA_256_CBC_SHA384",
   "TLS_DH_RSA_WITH_ARIA_256_GCM_SHA384",
   "TLS_DH_RSA_WITH_CAMELLIA_128_CBC_SHA",
   "TLS_DH_RSA_WITH_CAMELLIA_128_CBC_SHA256",
   "TLS_DH_RSA_WITH_CAMELLIA_128_GCM_SHA256",
   "TLS_DH_RSA_WITH_CAMELLIA_256_CBC_SHA",
   "TLS_DH_RSA_WITH_CAMELLIA_256_CBC_SHA256",
   "TLS_DH_RSA_WITH_CAMELLIA_256_GCM_SHA384",
   "TLS_DH_RSA_WITH_DES_CBC_SHA",
   "TLS_DH_RSA_WITH_SEED_CBC_SHA",
   "TLS_DH_anon_EXPORT_WITH_DES40_CBC_SHA",
   "TLS_DH_anon_EXPORT_WITH_RC4_40_MD5",
   "TLS_DH_anon_WITH_3DES_EDE_CBC_SHA",
   "TLS_DH_anon_WITH_AES_128_CBC_SHA",
   "TLS_DH_anon_WITH_AES_128_CBC_SHA256",
   "TLS_DH_anon_WITH_AES_128_GCM_SHA256",
   "TLS_DH_anon_WITH_AES_256_CBC_SHA",
   "TLS_DH_anon_WITH_AES_256_CBC_SHA256",
   "TLS_DH_anon_WITH_AES_256_GCM_SHA384",
   "TLS_DH_anon_WITH_ARIA_128_CBC_SHA256",
   "TLS_DH_anon_WITH_ARIA_128_GCM_SHA256",
   "TLS_DH_anon_WITH_ARIA_256_CBC_SHA384",
   "TLS_DH_anon_WITH_ARIA_256_GCM_SHA384",
   "TLS_DH_anon_WITH_CAMELLIA_128_CBC_SHA",
   "TLS_DH_anon_WITH_CAMELLIA_128_CBC_SHA256",
   "TLS_DH_anon_WITH_CAMELLIA_128_GCM_SHA256",
   "TLS_DH_anon_WITH_CAMELLIA_256_CBC_SHA",
   "TLS_DH_anon_WITH_CAMELLIA_256_CBC_SHA256",
   "TLS_DH_anon_WITH_CAMELLIA_256_GCM_SHA384",
   "TLS_DH_anon_WITH_DES_CBC_SHA",
   "TLS_DH_anon_WITH_RC4_128_MD5",
   "TLS_DH_anon_WITH_SEED_CBC_SHA",
   "TLS_ECDHE_ECDSA_WITH_3DES_EDE_CBC_SHA",
   "TLS_ECDHE_ECDSA_WITH_AES_128_CBC_SHA",
   "TLS_ECDHE_ECDSA_WITH_AES_128_CBC_SHA256",
   "TLS_ECDHE_ECDSA_WITH_AES_128_CCM",
   "TLS_ECDHE_ECDSA_WITH_AES_128_CCM_8",
   "TLS_ECDHE_ECDSA_WITH_AES_128_GCM_SHA256",
   "TLS_ECDHE_ECDSA_WITH_AES_256_CBC_SHA",
   "TLS_ECDHE_ECDSA_WITH_AES_256_CBC_SHA384",
   "TLS_ECDHE_ECDSA_WITH_AES_256_CCM",
   "TLS_ECDHE_ECDSA_WITH_AES_256_CCM_8",
   "TLS_ECDHE_ECDSA_WITH_AES_256_GCM_SHA384",
   "TLS_ECDHE_ECDSA_WITH_ARIA_128_CBC_SHA256",
   "TLS_ECDHE_ECDSA_WITH_ARIA_128_GCM_SHA256",
   "TLS_ECDHE_ECDSA_WITH_ARIA_256_CBC_SHA384",
   "TLS_ECDHE_ECDSA_WITH_ARIA_256_GCM_SHA384",
   "TLS_ECDHE_ECDSA_WITH_CAMELLIA_128_CBC_SHA256",
   "TLS_ECDHE_ECDSA_WITH_CAMELLIA_128_GCM_SHA256",
   "TLS_ECDHE_ECDSA_WITH_CAMELLIA_256_CBC_SHA384",
   "TLS_ECDHE_ECDSA_WITH_CAMELLIA_256_GCM_SHA384",
   "TLS_ECDHE_ECDSA_WITH_CHACHA20_POLY1305_SHA256",
   "TLS_ECDHE_ECDSA_WITH_NULL_SHA",
   "TLS_ECDHE_ECDSA_WITH_RC4_128_SHA",
   "TLS_ECDHE_PSK_WITH_3DES_EDE_CBC_SHA",
   "TLS_ECDHE_PSK_WITH_AES_128_CBC_SHA",
   "TLS_ECDHE_PSK_WITH_AES_128_CBC_SHA256",
   "TLS_ECDHE_PSK_WITH_AES_256_CBC_SHA",
   "TLS_ECDHE_PSK_WITH_AES_256_CBC_SHA384",
   "TLS_ECDHE_PSK_WITH_ARIA_128_GCM_SHA256",
   "TLS_ECDHE_PSK_WITH_ARIA_256_GCM_SHA384",
   "TLS_ECDHE_PSK_WITH_CAMELLIA_128_CBC_SHA256",
   "TLS_ECDHE_PSK_WITH_CAMELLIA_256_CBC_SHA384",
   "TLS_ECDHE_PSK_WITH_CHACHA20_POLY1305_SHA256",
   "TLS_ECDHE_PSK_WITH_NULL_SHA",
   "TLS_ECDHE_PSK_WITH_NULL_SHA256",
   "TLS_ECDHE_PSK_WITH_NULL_SHA384",
   "TLS_ECDHE_PSK_WITH_RC4_128_SHA",
   "TLS_ECDHE_RSA_WITH_3DES_EDE_CBC_SHA",
   "TLS_ECDHE_RSA_WITH_AES_128_CBC_SHA",
   "TLS_ECDHE_RSA_WITH_AES_128_CBC_SHA256",
   "TLS_ECDHE_RSA_WITH_AES_128_GCM_SHA256",
   "TLS_ECDHE_RSA_WITH_AES_256_CBC_SHA",
   "TLS_ECDHE_RSA_WITH_AES_256_CBC_SHA384",
   "TLS_ECDHE_RSA_WITH_AES_256_GCM_SHA384",
   "TLS_ECDHE_RSA_WITH_ARIA_128_CBC_SHA256",
   "TLS_ECDHE_RSA_WITH_ARIA_128_GCM_SHA256",
   "TLS_ECDHE_RSA_WITH_ARIA_256_CBC_SHA384",
   "TLS_ECDHE_RSA_WITH_ARIA_256_GCM_SHA384",
   "TLS_ECDHE_RSA_WITH_CAMELLIA_128_CBC_SHA256",
   "TLS_ECDHE_RSA_WITH_CAMELLIA_128_GCM_SHA256",
   "TLS_ECDHE_RSA_WITH_CAMELLIA_256_CBC_SHA384",
   "TLS_ECDHE_RSA_WITH_CAMELLIA_256_GCM_SHA384",
   "TLS_ECDHE_RSA_WITH_CHACHA20_POLY1305_SHA256",
   "TLS_ECDHE_RSA_WITH_NULL_SHA",
   "TLS_ECDHE_RSA_WITH_RC4_128_SHA",
   "TLS_ECDH_ECDSA_WITH_3DES_EDE_CBC_SHA",
   "TLS_ECDH_ECDSA_WITH_AES_128_CBC_SHA",
   "TLS_ECDH_ECDSA_WITH_AES_128_CBC_SHA256",
   "TLS_ECDH_ECDSA_WITH_AES_128_GCM_SHA256",
   "TLS_ECDH_ECDSA_WITH_AES_256_CBC_SHA",
   "TLS_ECDH_ECDSA_WITH_AES_256_CBC_SHA384",
   "TLS_ECDH_ECDSA_WITH_AES_256_GCM_SHA384",
   "TLS_ECDH_ECDSA_WITH_ARIA_128_CBC_SHA256",
   "TLS_ECDH_ECDSA_WITH_ARIA_128_GCM_SHA256",
   "TLS_ECDH_ECDSA_WITH_ARIA_256_CBC_SHA384",
   "TLS_ECDH_ECDSA_WITH_ARIA_256_GCM_SHA384",
   "TLS_ECDH_ECDSA_WITH_CAMELLIA_128_CBC_SHA256",
   "TLS_ECDH_ECDSA_WITH_CAMELLIA_128_GCM_SHA256",
   "TLS_ECDH_ECDSA_WITH_CAMELLIA_256_CBC_SHA384",
   "TLS_ECDH_ECDSA_WITH_CAMELLIA_256_GCM_SHA384",
   "TLS_ECDH_ECDSA_WITH_NULL_SHA",
   "TLS_ECDH_ECDSA_WITH_RC4_128_SHA",
   "TLS_ECDH_RSA_WITH_3DES_EDE_CBC_SHA",
   "TLS_ECDH_RSA_WITH_AES_128_CBC_SHA",
   "TLS_ECDH_RSA_WITH_AES_128_CBC_SHA256",
   "TLS_ECDH_RSA_WITH_AES_128_GCM_SHA256",
   "TLS_ECDH_RSA_WITH_AES_256_CBC_SHA",
   "TLS_ECDH_RSA_WITH_AES_256_CBC_SHA384",
   "TLS_ECDH_RSA_WITH_AES_256_GCM_SHA384",
   "TLS_ECDH_RSA_WITH_ARIA_128_CBC_SHA256",
   "TLS_ECDH_RSA_WITH_ARIA_128_GCM_SHA256",
   "TLS_ECDH_RSA_WITH_ARIA_256_CBC_SHA384",
   "TLS_ECDH_RSA_WITH_ARIA_256_GCM_SHA384",
   "TLS_ECDH_RSA_WITH_CAMELLIA_128_CBC_SHA256",
   "TLS_ECDH_RSA_WITH_CAMELLIA_128_GCM_SHA256",
   "TLS_ECDH_RSA_WITH_CAMELLIA_256_CBC_SHA384",
   "TLS_ECDH_RSA_WITH_CAMELLIA_256_GCM_SHA384",
   "TLS_ECDH_RSA_WITH_NULL_SHA",
   "TLS_ECDH_RSA_WITH_RC4_128_SHA",
   "TLS_ECDH_anon_WITH_3DES_EDE_CBC_SHA",
   "TLS_ECDH_anon_WITH_AES_128_CBC_SHA",
   "TLS_ECDH_anon_WITH_AES_256_CBC_SHA",
   "TLS_ECDH_anon_WITH_NULL_SHA",
   "TLS_ECDH_anon_WITH_RC4_128_SHA",
   "TLS_EMPTY_RENEGOTIATION_INFO",
   "TLS_FALLBACK",
   "TLS_KRB5_EXPORT_WITH_DES_CBC_40_MD5",
   "TLS_KRB5_EXPORT_WITH_DES_CBC_40_SHA",
   "TLS_KRB5_EXPORT_WITH_RC2_CBC_40_MD5",
   "TLS_KRB5_EXPORT_WITH_RC2_CBC_40_SHA",
   "TLS_KRB5_EXPORT_WITH_RC4_40_MD5",
   "TLS_KRB5_EXPORT_WITH_RC4_40_SHA",
   "TLS_KRB5_WITH_3DES_EDE_CBC_MD5",
   "TLS_KRB5_WITH_3DES_EDE_CBC_SHA",
   "TLS_KRB5_WITH_DES_CBC_MD5",
   "TLS_KRB5_WITH_DES_CBC_SHA",
   "TLS_KRB5_WITH_IDEA_CBC_MD5",
   "TLS_KRB5_WITH_IDEA_CBC_SHA",
   "TLS_KRB5_WITH_RC4_128_MD5",
   "TLS_KRB5_WITH_RC4_128_SHA",
   "TLS_NULL_WITH_NULL_NULL",
   "TLS_PSK_WITH_3DES_EDE_CBC_SHA",
   "TLS_PSK_WITH_AES_128_CBC_SHA",
   "TLS_PSK_WITH_AES_128_CBC_SHA256",
   "TLS_PSK_WITH_AES_128_CCM",
   "TLS_PSK_WITH_AES_128_CCM_8",
   "TLS_PSK_WITH_AES_128_GCM_SHA256",
   "TLS_PSK_WITH_AES_256_CBC_SHA",
   "TLS_PSK_WITH_AES_256_CBC_SHA384",
   "TLS_PSK_WITH_AES_256_CCM",
   "TLS_PSK_WITH_AES_256_CCM_8",
   "TLS_PSK_WITH_AES_256_GCM_SHA384",
   "TLS_PSK_WITH_ARIA_128_CBC_SHA256",
   "TLS_PSK_WITH_ARIA_128_GCM_SHA256",
   "TLS_PSK_WITH_ARIA_256_CBC_SHA384",
   "TLS_PSK_WITH_ARIA_256_GCM_SHA384",
   "TLS_PSK_WITH_CAMELLIA_128_CBC_SHA256",
   "TLS_PSK_WITH_CAMELLIA_128_GCM_SHA256",
   "TLS_PSK_WITH_CAMELLIA_256_CBC_SHA384",
   "TLS_PSK_WITH_CAMELLIA_256_GCM_SHA384",
   "TLS_PSK_WITH_CHACHA20_POLY1305_SHA256",
   "TLS_PSK_WITH_NULL_SHA",
   "TLS_PSK_WITH_NULL_SHA256",
   "TLS_PSK_WITH_NULL_SHA384",
   "TLS_PSK_WITH_RC4_128_SHA",
   "TLS_RSA_EXPORT_WITH_DES40_CBC_SHA",
   "TLS_RSA_EXPORT_WITH_RC2_CBC_40_MD5",
   "TLS_RSA_EXPORT_WITH_RC4_40_MD5",
   "TLS_RSA_PSK_WITH_3DES_EDE_CBC_SHA",
   "TLS_RSA_PSK_WITH_AES_128_CBC_SHA",
   "TLS_RSA_PSK_WITH_AES_128_CBC_SHA256",
   "TLS_RSA_PSK_WITH_AES_128_GCM_SHA256",
   "TLS_RSA_PSK_WITH_AES_256_CBC_SHA",
   "TLS_RSA_PSK_WITH_AES_256_CBC_SHA384",
   "TLS_RSA_PSK_WITH_AES_256_GCM_SHA384",
   "TLS_RSA_PSK_WITH_ARIA_128_CBC_SHA256",
   "TLS_RSA_PSK_WITH_ARIA_128_GCM_SHA256",
   "TLS_RSA_PSK_WITH_ARIA_256_CBC_SHA384",
   "TLS_RSA_PSK_WITH_ARIA_256_GCM_SHA384",
   "TLS_RSA_PSK_WITH_CAMELLIA_128_CBC_SHA256",
   "TLS_RSA_PSK_WITH_CAMELLIA_128_GCM_SHA256",
   "TLS_RSA_PSK_WITH_CAMELLIA_256_CBC_SHA384",
   "TLS_RSA_PSK_WITH_CAMELLIA_256_GCM_SHA384",
   "TLS_RSA_PSK_WITH_CHACHA20_POLY1305_SHA256",
   "TLS_RSA_PSK_WITH_NULL_SHA",
   "TLS_RSA_PSK_WITH_NULL_SHA256",
   "TLS_RSA_PSK_WITH_NULL_SHA384",
   "TLS_RSA_PSK_WITH_RC4_128_SHA",
   "TLS_RSA_WITH_3DES_EDE_CBC_SHA",
   "TLS_RSA_WITH_AES_128_CBC_SHA",
   "TLS_RSA_WITH_AES_128_CBC_SHA256",
   "TLS_RSA_WITH_AES_128_CCM",
   "TLS_RSA_WITH_AES_128_CCM_8",
   "TLS_RSA_WITH_AES_128_GCM_SHA256",
   "TLS_RSA_WITH_AES_256_CBC_SHA",
   "TLS_RSA_WITH_AES_256_CBC_SHA256",
   "TLS_RSA_WITH_AES_256_CCM",
   "TLS_RSA_WITH_AES_256_CCM_8",
   "TLS_RSA_WITH_AES_256_GCM_SHA384",
   "TLS_RSA_WITH_ARIA_128_CBC_SHA256",
   "TLS_RSA_WITH_ARIA_128_GCM_SHA256",
   "TLS_RSA_WITH_ARIA_256_CBC_SHA384",
   "TLS_RSA_WITH_ARIA_256_GCM_SHA384",
   "TLS_RSA_WITH_CAMELLIA_128_CBC_SHA",
   "TLS_RSA_WITH_CAMELLIA_128_CBC_SHA256",
   "TLS_RSA_WITH_CAMELLIA_128_GCM_SHA256",
   "TLS_RSA_WITH_CAMELLIA_256_CBC_SHA",
   "TLS_RSA_WITH_CAMELLIA_256_CBC_SHA256",
   "TLS_RSA_WITH_CAMELLIA_256_GCM_SHA384",
   "TLS_RSA_WITH_DES_CBC_SHA",
   "TLS_RSA_WITH_IDEA_CBC_SHA",
   "TLS_RSA_WITH_NULL_MD5",
   "TLS_RSA_WITH_NULL_SHA",
   "TLS_RSA_WITH_NULL_SHA256",
   "TLS_RSA_WITH_RC4_128_MD5",
   "TLS_RSA_WITH_RC4_128_SHA",
   "TLS_RSA_WITH_SEED_CBC_SHA",
   "TLS_SRP_SHA_DSS_WITH_3DES_EDE_CBC_SHA",
   "TLS_SRP_SHA_DSS_WITH_AES_128_CBC_SHA",
   "TLS_SRP_SHA_DSS_WITH_AES_256_CBC_SHA",
   "TLS_SRP_SHA_RSA_WITH_3DES_EDE_CBC_SHA",
   "TLS_SRP_SHA_RSA_WITH_AES_128_CBC_SHA",
   "TLS_SRP_SHA_RSA_WITH_AES_256_CBC_SHA",
   "TLS_SRP_SHA_WITH_3DES_EDE_CBC_SHA",
   "TLS_SRP_SHA_WITH_AES_128_CBC_SHA",
   "TLS_SRP_SHA_WITH_AES_256_CBC_SHA",
   "UNKNOWN_CIPHER"]

/-- Boolean lexicographic strict order on char lists, comparing code points. -/
def charListLt : List Char → List Char → Bool
  | _, [] => false
  | [], _ :: _ => true
  | a :: as, b :: bs =>
    decide (a.toNat < b.toNat) || (decide (a.toNat = b.toNat) && charListLt as bs)

/-- Boolean lexicographic strict order on strings. -/
def strLtB (a b : String) : Bool := charListLt a.data b.data

/-- Boolean check that consecutive list elements are related by `f`. -/
def chainB {α : Type} (f : α → α → Bool) : List α → Bool
  | a :: b :: t => f a b && chainB f (b :: t)
  | _ => true

/-- The codes of the table rows, spelled out. -/
theorem codes_spelled : List.map (fun s => s.code) CIPHERSUITES = tableCodes := by rfl

/-- The canonical names of the table rows, spelled out. -/
theorem names_spelled : List.map CipherSuite.name CIPHERSUITES = tableNames := by rfl

theorem idxN_sorts : List.insertionSort (fun a b : Nat => a ≤ b) idxN = rangeLit := by rfl

theorem idxC_sorts : List.insertionSort (fun a b : Nat => a ≤ b) idxC = rangeLit := by rfl

theorem idxN_selects :
    idxN.map (fun i => tableNames.getD i (String.mk [])) = sortedNames := by rfl

theorem range_selects_names :
    rangeLit.map (fun i => tableNames.getD i (String.mk [])) = tableNames := by rfl

theorem idxC_selects : idxC.map (fun i => tableCodes.getD i 0) = sortedCodes := by rfl

theorem range_selects_codes : rangeLit.map (fun i => tableCodes.getD i 0) = tableCodes := by rfl

theorem sortedCodes_chain : chainB (fun a b : Nat => decide (a < b)) sortedCodes = true := by
  decide

theorem sortedNames_chain : chainB strLtB sortedNames = true := by decide

theorem charListLt_irrefl : ∀ l, charListLt l l = false := by
  intro l
  induction l with
  | nil => rfl
  | cons a t ih => simp [charListLt, ih, Nat.lt_irrefl]

theorem charListLt_trans :
    ∀ a b c, charListLt a b = true → charListLt b c = true → charListLt a c = true := by
  intro a
  induction a with
  | nil =>
    intro b c _ hbc
    cases c with
    | nil =>
      rw [show charListLt b [] = false from by cases b <;> rfl] at hbc
      cases hbc
    | cons z zs => rfl
  | cons x xs ih =>
    intro b c hab hbc
    cases b with
    | nil => simp [charListLt] at hab
    | cons y ys =>
      cases c with
      | nil => simp [charListLt] at hbc
      | cons z zs =>
        simp only [charListLt, Bool.or_eq_true, Bool.and_eq_true, decide_eq_true_eq]
          at hab hbc ⊢
        rcases hab with h1 | ⟨h1e, h1t⟩
        · rcases hbc with h2 | ⟨h2e, h2t⟩
          · exact Or.inl (by omega)
          · exact Or.inl (by omega)
        · rcases hbc with h2 | ⟨h2e, h2t⟩
          · exact Or.inl (by omega)
          · exact Or.inr ⟨by omega, ih ys zs h1t h2t⟩

theorem strLtB_irrefl : ∀ s, strLtB s s = false := fun s => charListLt_irrefl s.data

theorem strLtB_trans :
    ∀ a b c, strLtB a b = true → strLtB b c = true → strLtB a c = true :=
  fun a b c hab hbc => charListLt_trans a.data b.data c.data hab hbc

theorem natLtB_irrefl : ∀ n : Nat, decide (n < n) = false := by simp

theorem natLtB_trans :
    ∀ a b c : Nat, decide (a < b) = true → decide (b < c) = true → decide (a < c) = true := by
  intro a b c h1 h2
  simp only [decide_eq_true_eq] at h1 h2 ⊢
  omega

theorem chainB_head {α : Type} (f : α → α → Bool)
    (htrans : ∀ a b c, f a b = true → f b c = true → f a c = true) :
    ∀ (t : List α) (a : α), chainB f (a :: t) = true → ∀ x ∈ t, f a x = true := by
  intro t
  induction t with
  | nil => intro a _ x hx; cases hx
  | cons b t ih =>
    intro a h x hx
    have h' : (f a b && chainB f (b :: t)) = true := h
    simp only [Bool.and_eq_true] at h'
    have h1 : f a b = true := h'.1
    have h2 : chainB f (b :: t) = true := h'.2
    cases hx with
    | head => exact h1
    | tail _ hx => exact htrans a b x h1 (ih b h2 x hx)

theorem nodup_of_chainB {α : Type} (f : α → α → Bool)
    (htrans : ∀ a b c, f a b = true → f b c = true → f a c = true)
    (hirr : ∀ a, f a a = false) :
    ∀ l, chainB f l = true → l.Nodup := by
  intro l
  induction l with
  | nil => intro _; exact List.nodup_nil
  | cons a t ih =>
    intro h
    have ht : chainB f t = true := by
      cases t with
      | nil => rfl
      | cons b t' =>
        have h' : (f a b && chainB f (b :: t')) = true := h
        simp only [Bool.and_eq_true] at h'
        exact h'.2
    refine List.nodup_cons.mpr ⟨fun hmem => ?_, ih ht⟩
    have hfa := chainB_head f htrans t a h a hmem
    rw [hirr a] at hfa
    cases hfa

theorem tableNames_perm_sorted : tableNames.Perm sortedNames := by
  have h := List.perm_insertionSort (fun a b : Nat => a ≤ b) idxN
  rw [idxN_sorts] at h
  have h2 := h.map (fun i => tableNames.getD i (String.mk []))
  rw [range_selects_names, idxN_selects] at h2
  exact h2

theorem tableCodes_perm_sorted : tableCodes.Perm sortedCodes := by
  have h := List.perm_insertionSort (fun a b : Nat => a ≤ b) idxC
  rw [idxC_sorts] at h
  have h2 := h.map (fun i => tableCodes.getD i 0)
  rw [range_selects_codes, idxC_selects] at h2
  exact h2

theorem tableNames_nodup : tableNames.Nodup :=
  (List.Perm.nodup_iff tableNames_perm_sorted).mpr
    (nodup_of_chainB strLtB strLtB_trans strLtB_irrefl sortedNames sortedNames_chain)

theorem tableCodes_nodup : tableCodes.Nodup :=
  (List.Perm.nodup_iff tableCodes_perm_sorted).mpr
    (nodup_of_chainB (fun a b : Nat => decide (a < b)) natLtB_trans natLtB_irrefl
      sortedCodes sortedCodes_chain)

theorem names_nodup : (List.map CipherSuite.name CIPHERSUITES).Nodup := by
  rw [names_spelled]; exact tableNames_nodup

theorem codes_nodup : (List.map (fun s => s.code) CIPHERSUITES).Nodup := by
  rw [codes_spelled]; exact tableCodes_nodup

theorem find?_key_unique {α β : Type} [BEq β] [LawfulBEq β] (f : α → β) :
    ∀ (l : List α) (s : α), (List.map f l).Nodup → s ∈ l →
      List.find? (fun t => f t == f s) l = some s := by
  intro l
  induction l with
  | nil => intro s _ hs; cases hs
  | cons a t ih =>
    intro s hnd hs
    rw [List.map_cons, List.nodup_cons] at hnd
    cases hs with
    | head => exact List.find?_cons_of_pos _ (by simp)
    | tail _ hs =>
      rw [List.find?_cons_of_neg, ih s hnd.2 hs]
      intro hbeq
      have hfa : f a = f s := by simpa using hbeq
      exact hnd.1 (hfa ▸ List.mem_map_of_mem f hs)

theorem byCode_mem : ∀ s ∈ CIPHERSUITES, BY_CODE s.code = some s := by
  intro s hs
  show List.find? (fun t => t.code == s.code) CIPHERSUITES.reverse = some s
  refine find?_key_unique (fun t => t.code) CIPHERSUITES.reverse s ?_
    (List.mem_reverse.mpr hs)
  rw [List.map_reverse]
  exact List.nodup_reverse.mpr codes_nodup

theorem byName_mem : ∀ s ∈ CIPHERSUITES, BY_NAME s.name = some s := by
  intro s hs
  show List.find? (fun t => t.name == s.name) CIPHERSUITES.reverse = some s
  refine find?_key_unique CipherSuite.name CIPHERSUITES.reverse s ?_
    (List.mem_reverse.mpr hs)
  rw [List.map_reverse]
  exact List.nodup_reverse.mpr names_nodup

theorem byCode_none (c : Nat) (h : ∀ s ∈ CIPHERSUITES, s.code ≠ c) : BY_CODE c = none := by
  show List.find? (fun t => t.code == c) CIPHERSUITES.reverse = none
  rw [List.find?_eq_none]
  intro x hx hbeq
  exact h x (List.mem_reverse.mp hx) (by simpa using hbeq)

theorem byName_none (nm : String) (h : ∀ s ∈ CIPHERSUITES, s.name ≠ nm) :
    BY_NAME nm = none := by
  show List.find? (fun t => t.name == nm) CIPHERSUITES.reverse = none
  rw [List.find?_eq_none]
  intro x hx hbeq
  exact h x (List.mem_reverse.mp hx) (by simpa using hbeq)

/-- C1: for every entry in the cipher-suite table, looking the entry's code up
in `BY_CODE` returns that exact entry, and looking the entry's canonical name
up in `BY_NAME` returns that exact entry (round-trip between an entry and both
lookup indexes). -/
theorem claim_C1_roundtrip :
    ∀ s ∈ CIPHERSUITES, BY_CODE s.code = some s ∧ BY_NAME s.name = some s :=
  fun s hs => ⟨byCode_mem s hs, byName_mem s hs⟩

theorem claim_C1_roundtrip_witness :
    CipherSuite.plain 0x0000 "NULL" "        " "NULL    " "    " "NULL" ∈ CIPHERSUITES ∧
    (BY_CODE (CipherSuite.plain 0x0000 "NULL" "        " "NULL    " "    " "NULL").code =
        some (CipherSuite.plain 0x0000 "NULL" "        " "NULL    " "    " "NULL") ∧
      BY_NAME (CipherSuite.plain 0x0000 "NULL" "        " "NULL    " "    " "NULL").name =
        some (CipherSuite.plain 0x0000 "NULL" "        " "NULL    " "    " "NULL")) :=
  ⟨by decide, claim_C1_roundtrip _ (by decide)⟩

/-- C2 as stated is false on the code: the suites 0x0000 and 0x00ff carry the
non-empty mac token "NULL", which is absent from `MAC_SIZES`, so `mac_size`
is 0 although the mac token is not the empty string. -/
theorem claim_C2_counterexample :
    (BY_CODE 0x0000).map (fun s => (s.mac, s.mac_size)) = some ("NULL", 0) ∧
    ¬ (∀ s ∈ CIPHERSUITES, (s.mac_size = 0 ↔ s.mac = "")) := by
  constructor
  · decide
  · intro h
    have := (h (CipherSuite.plain 0x0000 "NULL" "        " "NULL    " "    " "NULL")
      (by decide)).mp (by decide)
    exact absurd this (by decide)

/-- C2 amended: for every entry, `mac_size` is one of 0, 16, 20, 32, 48; it is
0 for every entry whose mac token is empty, and it is 0 exactly when the mac
token is absent from `MAC_SIZES` — in this table, exactly when the token is
the empty string or the literal "NULL". -/
theorem claim_C2_amended :
    ∀ s ∈ CIPHERSUITES,
      (s.mac_size = 0 ∨ s.mac_size = 16 ∨ s.mac_size = 20 ∨ s.mac_size = 32 ∨
        s.mac_size = 48) ∧
      (s.mac = "" → s.mac_size = 0) ∧
      (s.mac_size = 0 ↔ (s.mac = "" ∨ s.mac = "NULL")) := by decide

theorem claim_C2_amended_witness :
    ((CipherSuite.plain 0x0001 "RSA" "         " "NULL    " "    " "MD5").mac_size = 0 ∨
      (CipherSuite.plain 0x0001 "RSA" "         " "NULL    " "    " "MD5").mac_size = 16 ∨
      (CipherSuite.plain 0x0001 "RSA" "         " "NULL    " "    " "MD5").mac_size = 20 ∨
      (CipherSuite.plain 0x0001 "RSA" "         " "NULL    " "    " "MD5").mac_size = 32 ∨
      (CipherSuite.plain 0x0001 "RSA" "         " "NULL    " "    " "MD5").mac_size = 48) ∧
    ((CipherSuite.plain 0x0001 "RSA" "         " "NULL    " "    " "MD5").mac = "" →
      (CipherSuite.plain 0x0001 "RSA" "         " "NULL    " "    " "MD5").mac_size = 0) ∧
    ((CipherSuite.plain 0x0001 "RSA" "         " "NULL    " "    " "MD5").mac_size = 0 ↔
      ((CipherSuite.plain 0x0001 "RSA" "         " "NULL    " "    " "MD5").mac = "" ∨
        (CipherSuite.plain 0x0001 "RSA" "         " "NULL    " "    " "MD5").mac = "NULL")) :=
  claim_C2_amended _ (by decide)

/-- C3: for every entry, `name` is the explicit override when one is set, and
otherwise the derived string `TLS_<kx_auth>_WITH_<encoding>` with `_<mac>`
appended exactly when the mac token is non-empty; the entries 0xcc15 and
0xccaa share all five tokens yet have the distinct names
OLD_TLS_DHE_RSA_WITH_CHACHA20_POLY1305_SHA256 and
TLS_DHE_RSA_WITH_CHACHA20_POLY1305_SHA256, so the explicit name takes
precedence over derivation. -/
theorem claim_C3_name :
    (∀ s ∈ CIPHERSUITES,
      s.name = s.nameOpt.getD ("TLS_" ++ s.kx_auth ++ "_WITH_" ++ s.encoding ++
        (if s.mac = "" then "" else "_" ++ s.mac))) ∧
    (BY_CODE 0xcc15).map CipherSuite.name =
      some ("OLD_TLS_DHE_RSA_WITH_CHACHA20_POLY1305_SHA256") ∧
    (BY_CODE 0xccaa).map CipherSuite.name =
      some ("TLS_DHE_RSA_WITH_CHACHA20_POLY1305_SHA256") ∧
    (BY_CODE 0xcc15).map (fun s => (s.kx, s.auth, s.cipher, s.mode, s.mac)) =
      (BY_CODE 0xccaa).map (fun s => (s.kx, s.auth, s.cipher, s.mode, s.mac)) ∧
    (BY_CODE 0xcc15).map
        (fun s => "TLS_" ++ s.kx_auth ++ "_WITH_" ++ s.encoding ++ "_" ++ s.mac) =
      some ("TLS_DHE_RSA_WITH_CHACHA20_POLY1305_SHA256") :=
  ⟨by decide, by decide, by decide, by decide, by decide⟩

theorem claim_C3_name_witness :
    (CipherSuite.plain 0x0009 "RSA" "         " "DES     " "CBC " "SHA").name =
      (CipherSuite.plain 0x0009 "RSA" "         " "DES     " "CBC " "SHA").nameOpt.getD
        ("TLS_" ++ (CipherSuite.plain 0x0009 "RSA" "         " "DES     " "CBC " "SHA").kx_auth ++
          "_WITH_" ++ (CipherSuite.plain 0x0009 "RSA" "         " "DES     " "CBC " "SHA").encoding ++
          (if (CipherSuite.plain 0x0009 "RSA" "         " "DES     " "CBC " "SHA").mac = ""
            then "" else
            "_" ++ (CipherSuite.plain 0x0009 "RSA" "         " "DES     " "CBC " "SHA").mac)) :=
  claim_C3_name.1 _ (by decide)

/-- C4: `block_size` makes the three-way distinction: entries whose cipher
token is a key of `BLOCK_SIZES` get exactly the stored value (a numeric size,
or the distinguished `none` for the three RC4 variants), and entries whose
cipher token is absent from the table get the default `some 1`; `none` is
distinct from every numeric size and from the default. -/
theorem claim_C4_block_size :
    (∀ s ∈ CIPHERSUITES,
      (BLOCK_SIZES.lookup s.cipher = some s.block_size ∨
        (BLOCK_SIZES.lookup s.cipher = none ∧ s.block_size = some 1)) ∧
      ((s.cipher = "RC4_40" ∨ s.cipher = "RC4_128" ∨ s.cipher = "RC4_128_EXPORT40") →
        s.block_size = none)) ∧
    (∀ n : Nat, (none : Option Nat) ≠ some n) :=
  ⟨by decide, fun n h => Option.noConfusion h⟩

theorem claim_C4_block_size_witness :
    (CipherSuite.plain 0x0004 "RSA" "         " "RC4_128 " "    " "MD5").block_size = none :=
  (claim_C4_block_size.1 _ (by decide)).2 (by decide)

/-- C5: contrary to the claim, ARIA suites are NOT handled by an explicit
entry of the block-size table: the cipher tokens are "ARIA_128"/"ARIA_256"
while the table's only ARIA key is the dead string "ARIA" (matched by no
entry), so the ARIA suite 0xc03c falls back to the default block size 1. -/
theorem claim_C5_aria_eval :
    (BY_CODE 0xc03c).map (fun s => (s.cipher, s.block_size)) =
      some ("ARIA_128", some 1) ∧
    List.lookup ("ARIA_128") BLOCK_SIZES = none ∧
    List.lookup ("ARIA_256") BLOCK_SIZES = none ∧
    List.lookup ("ARIA") BLOCK_SIZES = some (some 16) ∧
    List.all CIPHERSUITES (fun s => !(s.cipher == "ARIA")) = true ∧
    List.all CIPHERSUITES
      (fun s => !(s.cipher == "ARIA_128" || s.cipher == "ARIA_256") ||
        s.block_size == some 1) = true := by
  refine ⟨by decide, by decide, by decide, by decide, by decide, by decide⟩

/-- C6: for every entry, `aead` is true exactly when the mode token is one of
CCM, CCM_8, GCM. -/
theorem claim_C6_aead :
    ∀ s ∈ CIPHERSUITES,
      (s.aead = true ↔ (s.mode = "CCM" ∨ s.mode = "CCM_8" ∨ s.mode = "GCM")) := by decide

theorem claim_C6_aead_witness :
    (CipherSuite.plain 0x009c "RSA " "        " "AES_128 " "GCM " "SHA256").aead = true ↔
      ((CipherSuite.plain 0x009c "RSA " "        " "AES_128 " "GCM " "SHA256").mode = "CCM" ∨
        (CipherSuite.plain 0x009c "RSA " "        " "AES_128 " "GCM " "SHA256").mode = "CCM_8" ∨
        (CipherSuite.plain 0x009c "RSA " "        " "AES_128 " "GCM " "SHA256").mode = "GCM") :=
  claim_C6_aead _ (by decide)

/-- C7: for every entry, `pfs` is true exactly when the effective key
exchange `kx` is exactly "DHE" or exactly "ECDHE". -/
theorem claim_C7_pfs :
    ∀ s ∈ CIPHERSUITES, (s.pfs = true ↔ (s.kx = "DHE" ∨ s.kx = "ECDHE")) := by decide

theorem claim_C7_pfs_witness :
    (CipherSuite.plain 0x0033 "DHE " "RSA     " "AES_128 " "CBC " "SHA").pfs = true ↔
      ((CipherSuite.plain 0x0033 "DHE " "RSA     " "AES_128 " "CBC " "SHA").kx = "DHE" ∨
        (CipherSuite.plain 0x0033 "DHE " "RSA     " "AES_128 " "CBC " "SHA").kx = "ECDHE") :=
  claim_C7_pfs _ (by decide)

/-- C8: any two entries at distinct positions of the table have distinct
codes (global uniqueness, the legacy 3-byte SSL2 codes included). -/
theorem claim_C8_codes_unique :
    List.Pairwise (fun a b => a.code ≠ b.code) CIPHERSUITES := by
  have h : List.Pairwise (fun a b : Nat => a ≠ b)
      (List.map (fun s => s.code) CIPHERSUITES) := codes_nodup
  rw [List.pairwise_map] at h
  exact h

/-- C9: a code (or name) absent from the table yields the distinguishable
result `none`, never a fabricated entry, and a code (or name) present in the
table yields exactly the corresponding entry. -/
theorem claim_C9_lookup :
    (∀ c : Nat, (∀ s ∈ CIPHERSUITES, s.code ≠ c) → BY_CODE c = none) ∧
    (∀ s ∈ CIPHERSUITES, BY_CODE s.code = some s) ∧
    (∀ nm : String, (∀ s ∈ CIPHERSUITES, s.name ≠ nm) → BY_NAME nm = none) ∧
    (∀ s ∈ CIPHERSUITES, BY_NAME s.name = some s) :=
  ⟨byCode_none, byCode_mem, byName_none, byName_mem⟩

theorem claim_C9_lookup_witness :
    BY_CODE 0x001c = none ∧ BY_NAME ("NOT_A_CIPHER_SUITE") = none ∧
    BY_CODE 0x0000 =
      some (CipherSuite.plain 0x0000 "NULL" "        " "NULL    " "    " "NULL") :=
  ⟨claim_C9_lookup.1 0x001c (by decide),
   claim_C9_lookup.2.2.1 ("NOT_A_CIPHER_SUITE") (by decide),
   claim_C9_lookup.2.1
     (CipherSuite.plain 0x0000 "NULL" "        " "NULL    " "    " "NULL") (by decide)⟩

/-- C10: every entry whose mode token is POLY1305 has `aead` false (the AEAD
predicate tests only CCM, CCM_8 and GCM), and the POLY1305 entries are
exactly the ten suites 0xcc13-0xcc15 and 0xcca8-0xccae. -/
theorem claim_C10_poly1305 :
    (∀ s ∈ CIPHERSUITES, s.mode = "POLY1305" → s.aead = false) ∧
    (CIPHERSUITES.filter (fun s => s.mode == "POLY1305")).map (fun s => s.code) =
      [0xcc13, 0xcc14, 0xcc15, 0xcca8, 0xcca9, 0xccaa, 0xccab, 0xccac, 0xccad, 0xccae] :=
  ⟨by decide, by decide⟩

theorem claim_C10_poly1305_witness :
    (CipherSuite.named 0xcc13 "ECDHE" "RSA    " "CHACHA20" "POLY1305" "SHA256"
      "OLD_TLS_ECDHE_RSA_WITH_CHACHA20_POLY1305_SHA256").aead = false :=
  claim_C10_poly1305.1 _ (by decide) (by decide)
